import Mathlib

/-!
Verification of the ppt_agent_demo pipeline orchestration core.

Shallow embedding of the Python sources:
* `src/models/slide.py`, `src/models/document.py`, `src/models/workflow.py`
* `src/workflow/nodes/slide_generator.py`
* `src/workflow/nodes/quality_evaluator.py`
* `src/providers/base_provider.py`, `src/providers/provider_factory.py`
* `src/workflow/ppt_workflow.py`

External asynchronous provider calls are modelled by explicit outcome
oracles (`Except String _` results supplied as arguments), and the loops
that consume them become structural recursions over outcome lists.
Floating-point scores are modelled by `ℚ` (all score literals appearing
in the sources are exactly representable).
-/

namespace PPTAgent

/-! ## Data model (`src/models/slide.py`, `src/models/document.py`) -/

/-- `QualityScore` from `src/models/slide.py`. -/
structure QualityScore where
  overall_score : ℚ
  accuracy_score : ℚ
  coherence_score : ℚ
  clarity_score : ℚ
  completeness_score : ℚ
  feedback : String
  passed : Bool
  suggestions : List String
  deriving DecidableEq

/-- `DocumentSection` from `src/models/document.py` (the fields the
orchestration core reads; `parent_section`/`subsections`/`word_count`
are never consulted by the embedded operations). -/
structure DocumentSection where
  title : String
  content : String
  level : Nat
  order : Nat
  deriving DecidableEq

/-- `SlideContent` from `src/models/slide.py` (the optional `narration`
field is never read by the embedded operations and is omitted). -/
structure SlideContent where
  title : String
  bullet_points : List String
  speaker_notes : String
  slide_number : Nat
  section_reference : String
  deriving DecidableEq

/-! ## Bounded-retry generation (`src/workflow/nodes/slide_generator.py`) -/

/-- `SlideGeneratorNode._create_fallback_slide`. -/
def create_fallback_slide (sec : DocumentSection) : SlideContent :=
  let bullet_points :=
    (((sec.content.splitOn "\n").map String.trim).filter fun l => l ≠ "").take 5
  let bullet_points :=
    if bullet_points = [] then ["内容生成失败，请检查网络连接"] else bullet_points
  { title := if sec.title = "" then "幻灯片标题" else sec.title
    bullet_points := bullet_points
    speaker_notes :=
      if sec.content.length > 200 then sec.content.take 200 ++ "..." else sec.content
    slide_number := sec.order + 1
    section_reference := sec.title }

/-- `SlideGeneratorNode._create_fallback_quality`. -/
def create_fallback_quality : QualityScore :=
  { overall_score := (1/2 : ℚ), accuracy_score := (1/2 : ℚ), coherence_score := (1/2 : ℚ)
    clarity_score := (1/2 : ℚ), completeness_score := (1/2 : ℚ)
    feedback := "内容生成失败，质量评估不可用", passed := false
    suggestions := ["重新生成幻灯片内容"] }

/-- The default `QualityScore` substituted when evaluation of a freshly
generated slide throws (`slide_generator.py` lines 178-189). -/
def neutral_pass_quality : QualityScore :=
  { overall_score := (7/10 : ℚ), accuracy_score := (7/10 : ℚ), coherence_score := (7/10 : ℚ)
    clarity_score := (7/10 : ℚ), completeness_score := (7/10 : ℚ)
    feedback := "质量评估服务不可用", passed := true, suggestions := [] }

/-- `SlideGeneratorNode._estimate_generation_cost`. -/
def estimate_generation_cost (sec : DocumentSection) : ℚ :=
  ((sec.content.length : ℚ) / 1000) * (1/100 : ℚ)

deriving instance DecidableEq for Except

/-- The oracle for one iteration of the retry loop in
`_generate_single_slide_with_quality_control`:
`gen` is the result of `provider.generate_slide_content`,
`eval` the result of `provider.evaluate_slide_quality` on that content,
and `opt` the combined result of `provider.optimize_slide_content`
followed by re-evaluation of the revision (the inner `try` covers both
calls, so a failure of either is one `Except.error`). -/
structure AttemptOutcome where
  gen : Except String SlideContent
  eval : Except String QualityScore
  opt : Except String (SlideContent × QualityScore)
  deriving DecidableEq

/-- The success payload dictionary returned by
`_generate_single_slide_with_quality_control`. -/
structure GenSuccess where
  slide : SlideContent
  quality_info : QualityScore
  attempts : Nat
  cost : ℚ
  deriving DecidableEq

/-- The `for attempt in range(self.max_retry_attempts)` loop of
`_generate_single_slide_with_quality_control` (lines 168-253), one list
element per remaining attempt.  `best` is the `(best_slide, best_quality)`
pair, `cost` the running `total_cost`, `idx` the number of attempts
already consumed. -/
def genLoop (sec : DocumentSection) :
    List AttemptOutcome → Option (SlideContent × QualityScore) → ℚ → Nat →
    Except String GenSuccess
  | [], best, cost, idx =>
    Except.ok
      { slide := (Option.map Prod.fst best).getD (create_fallback_slide sec)
        quality_info := (Option.map Prod.snd best).getD create_fallback_quality
        attempts := idx
        cost := cost }
  | o :: rest, best, cost, idx =>
    match o.gen with
    | Except.error e =>
      if rest.isEmpty then Except.error e
      else genLoop sec rest best cost (idx + 1)
    | Except.ok slide =>
      let q :=
        match o.eval with
        | Except.ok q => q
        | Except.error _ => neutral_pass_quality
      let cost1 := cost + estimate_generation_cost sec
      if q.passed then
        Except.ok { slide := slide, quality_info := q, attempts := idx + 1, cost := cost1 }
      else
        let best1 : SlideContent × QualityScore :=
          match best with
          | none => (slide, q)
          | some (bs, bq) =>
            if q.overall_score > bq.overall_score then (slide, q) else (bs, bq)
        if rest.isEmpty then genLoop sec rest (some best1) cost1 (idx + 1)
        else
          match o.opt with
          | Except.error _ => genLoop sec rest (some best1) cost1 (idx + 1)
          | Except.ok (oslide, oq) =>
            let cost2 := cost1 + estimate_generation_cost sec
            if oq.passed then
              Except.ok
                { slide := oslide, quality_info := oq, attempts := idx + 1, cost := cost2 }
            else
              let best2 :=
                if oq.overall_score > best1.2.overall_score then (oslide, oq) else best1
              genLoop sec rest (some best2) cost2 (idx + 1)

/-- `SlideGeneratorNode._generate_single_slide_with_quality_control`,
with `self.max_retry_attempts` materialised as `outcomes.length`
(the source fixes it to 3). -/
def generate_single_slide_with_quality_control (sec : DocumentSection)
    (outcomes : List AttemptOutcome) : Except String GenSuccess :=
  genLoop sec outcomes none 0 0

/-! ### Example fixtures -/

/-- A section with empty content: its estimated generation cost is 0,
which keeps concrete evaluations tidy. -/
def secZero : DocumentSection := { title := "t", content := "", level := 1, order := 0 }

/-- A slide candidate distinguished by its number. -/
def mkSlide (n : Nat) : SlideContent :=
  { title := "s", bullet_points := [], speaker_notes := "", slide_number := n
    section_reference := "t" }

/-- A score with all five components equal. -/
def mkScore (q : ℚ) (p : Bool) : QualityScore :=
  { overall_score := q, accuracy_score := q, coherence_score := q
    clarity_score := q, completeness_score := q
    feedback := "", passed := p, suggestions := [] }

/-- Generation fails on attempt 1, succeeds with a passing candidate on
attempt 2; attempt 3 is never reached. -/
def c2Outcomes : List AttemptOutcome :=
  [ { gen := Except.error "provider failure", eval := Except.error "unused"
      opt := Except.error "unused" },
    { gen := Except.ok (mkSlide 2), eval := Except.ok (mkScore (9/10 : ℚ) true)
      opt := Except.error "unused" },
    { gen := Except.ok (mkSlide 3), eval := Except.ok (mkScore (9/10 : ℚ) true)
      opt := Except.error "unused" } ]

/-- One attempt that "fails evaluation" throughout, for C1: generation
succeeds, evaluation succeeds with a non-passing score, and if the
optimization side-branch produced a revision, that revision also fails to
pass (otherwise the loop would early-return). -/
def attemptAllFailing (o : AttemptOutcome) : Bool :=
  (match o.gen with | Except.ok _ => true | Except.error _ => false) &&
  (match o.eval with | Except.ok q => !q.passed | Except.error _ => false) &&
  (match o.opt with | Except.ok c => !c.2.passed | Except.error _ => true)

/-- The sequence of (candidate, score) pairs inspected by the retry loop,
in inspection order, for a schedule where no early return fires: the
generated candidate of each attempt, then (on non-final attempts) the
successfully optimized revision, then the later attempts. -/
def attemptCandidates : List AttemptOutcome → List (SlideContent × QualityScore)
  | [] => []
  | o :: rest =>
    (match o.gen, o.eval with
     | Except.ok s, Except.ok q => [(s, q)]
     | Except.ok s, Except.error _ => [(s, neutral_pass_quality)]
     | Except.error _, _ => []) ++
    (if rest.isEmpty then []
     else
       match o.gen, o.opt with
       | Except.ok _, Except.ok c => [c]
       | _, _ => []) ++
    attemptCandidates rest

/-- The best-so-far update rule of the retry loop: the new candidate `c`
replaces the incumbent `b` only on strict improvement of the overall
score (ties keep the incumbent). -/
def pickBetter (b c : SlideContent × QualityScore) : SlideContent × QualityScore :=
  if c.2.overall_score > b.2.overall_score then c else b

/-- Three attempts, every generation succeeding, with overall scores
0.6, 0.75, 0.65 and no score passing; optimization always fails. -/
def c1Outcomes : List AttemptOutcome :=
  [ { gen := Except.ok (mkSlide 1), eval := Except.ok (mkScore (3/5) false)
      opt := Except.error "optimize failed" },
    { gen := Except.ok (mkSlide 2), eval := Except.ok (mkScore (3/4) false)
      opt := Except.error "optimize failed" },
    { gen := Except.ok (mkSlide 3), eval := Except.ok (mkScore (13/20) false)
      opt := Except.error "optimize failed" } ]

/-! ## Provider health tracking and routing
(`src/providers/base_provider.py`, `src/providers/provider_factory.py`) -/

/-- The request counters of `AIProvider` (`base_provider.py` lines
28-33).  `total_tokens_used` and `total_cost` are mutated only inside the
concrete provider method bodies, never by the retry/fallback control
flow, and are omitted here. -/
structure ProviderTracker where
  total_requests : Nat
  successful_requests : Nat
  failed_requests : Nat
  deriving DecidableEq

/-- `AIProvider.is_healthy` (lines 148-155). -/
def is_healthy (t : ProviderTracker) : Bool :=
  if t.total_requests = 0 then true
  else decide
    ((t.successful_requests : ℚ) / (t.total_requests : ℚ) ≥ (4/5 : ℚ))

/-- `AIProvider.execute_with_retry` (lines 92-120).  The list holds the
outcome each successive underlying call would produce, one entry per
allowed attempt (`max_retries + 1` entries, hence nonempty in every real
call); the loop stops early on the first success.  Each attempt made
increments `total_requests`; a successful attempt increments
`successful_requests` and returns; a failed attempt increments
`failed_requests`; exhaustion propagates the last error. -/
def execute_with_retry {α : Type} (t : ProviderTracker) :
    List (Except String α) → Except String α × ProviderTracker
  | [] => (Except.error "last_exception is None", t)
  | c :: rest =>
    let t1 : ProviderTracker := { t with total_requests := t.total_requests + 1 }
    match c with
    | Except.ok a =>
      (Except.ok a, { t1 with successful_requests := t1.successful_requests + 1 })
    | Except.error e =>
      let t2 : ProviderTracker := { t1 with failed_requests := t1.failed_requests + 1 }
      if rest.isEmpty then (Except.error e, t2)
      else execute_with_retry t2 rest

/-- `ProviderRouter.execute_with_fallback` (`provider_factory.py` lines
117-151) after the candidate list has been built: one entry per candidate
provider, holding its tracker and the underlying call outcomes of its
invocation (the provider methods route every call through
`execute_with_retry`).  `last` is the running `last_exception`; the
result is paired with the final tracker of every candidate in order. -/
def execute_with_fallback {α : Type} (last : Option String) :
    List (ProviderTracker × List (Except String α)) →
      Except String α × List ProviderTracker
  | [] =>
    (match last with
     | some e => Except.error e
     | none => Except.error "没有可用的提供者执行方法", [])
  | (t, calls) :: rest =>
    match execute_with_retry t calls with
    | (Except.ok a, t1) => (Except.ok a, t1 :: rest.map Prod.fst)
    | (Except.error e, t1) =>
      let res := execute_with_fallback (some e) rest
      (res.1, t1 :: res.2)

/-- The candidate ordering of `execute_with_fallback` lines 125-131: the
preferred/default provider name first, then every other registered
provider whose tracker reports healthy, in registration order.  Note the
result is never empty. -/
def build_candidate_names (primary : String)
    (providers : List (String × ProviderTracker)) : List String :=
  primary ::
    (providers.filter fun p => (p.1 != primary) && is_healthy p.2).map Prod.fst

/-! ## Batch quality evaluation (`src/workflow/nodes/quality_evaluator.py`) -/

/-- The per-slide assessment dictionary built by
`QualityEvaluatorNode._evaluate_single_slide`. -/
structure Assessment where
  slide_index : Nat
  slide_title : String
  overall_score : ℚ
  accuracy_score : ℚ
  coherence_score : ℚ
  clarity_score : ℚ
  completeness_score : ℚ
  feedback : String
  passed : Bool
  suggestions : List String
  deriving DecidableEq

/-- `QualityEvaluatorNode._evaluate_single_slide` (lines 94-131): a
successful provider evaluation is projected into the assessment
dictionary; a failure is replaced in place by the fixed degraded
assessment (all scores 0.6, `passed=false`) — this helper never raises. -/
def evaluate_single_slide (slide : SlideContent)
    (res : Except String QualityScore) : Assessment :=
  match res with
  | Except.ok q =>
    { slide_index := slide.slide_number - 1, slide_title := slide.title
      overall_score := q.overall_score, accuracy_score := q.accuracy_score
      coherence_score := q.coherence_score, clarity_score := q.clarity_score
      completeness_score := q.completeness_score, feedback := q.feedback
      passed := q.passed, suggestions := q.suggestions }
  | Except.error e =>
    { slide_index := slide.slide_number - 1, slide_title := slide.title
      overall_score := (3/5 : ℚ), accuracy_score := (3/5 : ℚ)
      coherence_score := (3/5 : ℚ), clarity_score := (3/5 : ℚ)
      completeness_score := (3/5 : ℚ), feedback := "评估失败: " ++ e
      passed := false, suggestions := ["请检查网络连接和API配置"] }

/-- The per-slide info dictionary placed in the issue buckets. -/
structure SlideIssueInfo where
  slide_index : Nat
  slide_title : String
  score : ℚ
  deriving DecidableEq

/-- The `slide_info` projection of `_analyze_quality_issues`. -/
def issueInfo (a : Assessment) : SlideIssueInfo :=
  { slide_index := a.slide_index, slide_title := a.slide_title
    score := a.overall_score }

/-- The five issue buckets of `_analyze_quality_issues`. -/
structure QualityIssues where
  low_accuracy : List SlideIssueInfo
  poor_coherence : List SlideIssueInfo
  unclear_content : List SlideIssueInfo
  incomplete_information : List SlideIssueInfo
  overall_low_quality : List SlideIssueInfo
  deriving DecidableEq

/-- `QualityEvaluatorNode._analyze_quality_issues` (lines 133-166).  The
source appends to each bucket while iterating once over the assessments;
bucket-wise this is a filter in iteration order.  The four component
buckets collect assessments whose component score is below 0.7; the
`overall_low_quality` bucket collects those whose overall score is below
0.6. -/
def analyze_quality_issues (assessments : List Assessment) : QualityIssues :=
  { low_accuracy :=
      (assessments.filter fun a => decide (a.accuracy_score < (7/10 : ℚ))).map issueInfo
    poor_coherence :=
      (assessments.filter fun a => decide (a.coherence_score < (7/10 : ℚ))).map issueInfo
    unclear_content :=
      (assessments.filter fun a => decide (a.clarity_score < (7/10 : ℚ))).map issueInfo
    incomplete_information :=
      (assessments.filter fun a => decide (a.completeness_score < (7/10 : ℚ))).map issueInfo
    overall_low_quality :=
      (assessments.filter fun a => decide (a.overall_score < (3/5 : ℚ))).map issueInfo }

/-- The canned suggestion emitted when more than 30% of assessments score
low on accuracy. -/
def suggestion_accuracy : String := "建议：检查原始文档内容的准确性，确保关键信息正确传达"

/-- The canned suggestion for the coherence dimension. -/
def suggestion_coherence : String := "建议：改善幻灯片之间的逻辑关系，增强整体连贯性"

/-- The canned suggestion for the clarity dimension. -/
def suggestion_clarity : String := "建议：简化表达方式，使用更清晰的语言和结构"

/-- The canned suggestion for the completeness dimension. -/
def suggestion_completeness : String := "建议：确保每张幻灯片包含完整的关键信息"

/-- The default message when no dimension breaches the 30% threshold. -/
def suggestion_default : String := "整体质量良好，建议保持当前的生成策略"

/-- The message returned for an empty assessment batch. -/
def suggestion_no_slides : String := "没有可评估的幻灯片"

/-- `QualityEvaluatorNode._generate_improvement_suggestions`
(lines 168-197). -/
def generate_improvement_suggestions (assessments : List Assessment) : List String :=
  if assessments.length = 0 then [suggestion_no_slides]
  else
    let total_slides := assessments.length
    let low_accuracy_count :=
      assessments.countP fun a => decide (a.accuracy_score < (7/10 : ℚ))
    let low_coherence_count :=
      assessments.countP fun a => decide (a.coherence_score < (7/10 : ℚ))
    let low_clarity_count :=
      assessments.countP fun a => decide (a.clarity_score < (7/10 : ℚ))
    let low_completeness_count :=
      assessments.countP fun a => decide (a.completeness_score < (7/10 : ℚ))
    let s :=
      (if (low_accuracy_count : ℚ) > (total_slides : ℚ) * (3/10 : ℚ)
        then [suggestion_accuracy] else []) ++
      (if (low_coherence_count : ℚ) > (total_slides : ℚ) * (3/10 : ℚ)
        then [suggestion_coherence] else []) ++
      (if (low_clarity_count : ℚ) > (total_slides : ℚ) * (3/10 : ℚ)
        then [suggestion_clarity] else []) ++
      (if (low_completeness_count : ℚ) > (total_slides : ℚ) * (3/10 : ℚ)
        then [suggestion_completeness] else [])
    if s = [] then [suggestion_default] else s

/-- The result dictionary of `evaluate_presentation_quality`.
(`failed_assessments` is omitted: `_evaluate_single_slide` catches every
failure internally, so that list is always empty.) -/
structure EvalResult where
  quality_assessments : List Assessment
  average_quality_score : ℚ
  pass_rate : ℚ
  passed_slides : Nat
  total_slides : Nat
  needs_optimization : Bool
  quality_issues : QualityIssues
  improvement_suggestions : List String
  quality_threshold : ℚ
  deriving DecidableEq

/-- `QualityEvaluatorNode.evaluate_presentation_quality` (lines 21-92).
A slide is evaluated iff some section title equals its
`section_reference`; `evalRes i` is the provider outcome for the i-th
evaluated slide (results retain task order). -/
def evaluate_presentation_quality (slides : List SlideContent)
    (sections : List DocumentSection) (quality_threshold : ℚ)
    (evalRes : Nat → Except String QualityScore) : EvalResult :=
  let evaluated := slides.filter fun sl =>
    sections.any fun s => s.title == sl.section_reference
  let assessments := evaluated.enum.map fun p => evaluate_single_slide p.2 (evalRes p.1)
  let total_score := (assessments.map Assessment.overall_score).sum
  let passed_count := assessments.countP fun a => a.passed
  let avg_score : ℚ :=
    if assessments.length = 0 then 0 else total_score / assessments.length
  let pass_rate : ℚ :=
    if assessments.length = 0 then 0 else (passed_count : ℚ) / assessments.length
  { quality_assessments := assessments
    average_quality_score := avg_score
    pass_rate := pass_rate
    passed_slides := passed_count
    total_slides := slides.length
    needs_optimization :=
      decide (avg_score < quality_threshold) || decide (pass_rate < (4/5 : ℚ))
    quality_issues := analyze_quality_issues assessments
    improvement_suggestions := generate_improvement_suggestions assessments
    quality_threshold := quality_threshold }

/-- An assessment with given accuracy and overall scores; the other
components are 1. -/
def mkAssessment (acc overall : ℚ) : Assessment :=
  { slide_index := 0, slide_title := "s", overall_score := overall
    accuracy_score := acc, coherence_score := 1, clarity_score := 1
    completeness_score := 1, feedback := "", passed := false, suggestions := [] }

/-- 10 assessments, 3 of which score accuracy below 0.7. -/
def ex10 : List Assessment :=
  [ mkAssessment (1/2) 1, mkAssessment (1/2) 1, mkAssessment (1/2) 1
  , mkAssessment 1 1, mkAssessment 1 1, mkAssessment 1 1, mkAssessment 1 1
  , mkAssessment 1 1, mkAssessment 1 1, mkAssessment 1 1 ]

/-- 10 assessments, 4 of which score accuracy below 0.7 (more than 30%). -/
def ex10b : List Assessment :=
  [ mkAssessment (1/2) 1, mkAssessment (1/2) 1, mkAssessment (1/2) 1
  , mkAssessment (1/2) 1, mkAssessment 1 1, mkAssessment 1 1, mkAssessment 1 1
  , mkAssessment 1 1, mkAssessment 1 1, mkAssessment 1 1 ]

/-! ## Standalone optimization pass (`slide_generator.py` lines 99-146) -/

/-- Per-slide provider outcomes for `optimize_low_quality_slides`:
`evalRes i` is the `evaluate_slide_quality` outcome for the i-th input
slide and `optRes i` the `optimize_slide_content` outcome for it. -/
structure OptimizeEnv where
  evalRes : Nat → Except String QualityScore
  optRes : Nat → Except String SlideContent

/-- The section lookup of line 113: true iff some section title equals
the slide's `section_reference`. -/
def section_found (sections : List DocumentSection) (slide : SlideContent) : Bool :=
  sections.any fun s => s.title == slide.section_reference

/-- The first loop of `optimize_low_quality_slides` (lines 111-129) over
the indexed slides: returns the slides kept as-is (no matching section /
passing evaluation / failed evaluation call), in iteration order, and the
pending optimization tasks, in task order. -/
def optimizeFirstPass (sections : List DocumentSection) (env : OptimizeEnv) :
    List (Nat × SlideContent) → List SlideContent × List (Nat × SlideContent)
  | [] => ([], [])
  | p :: rest =>
    let r := optimizeFirstPass sections env rest
    if section_found sections p.2 then
      match env.evalRes p.1 with
      | Except.ok q => if q.passed then (p.2 :: r.1, r.2) else (r.1, p :: r.2)
      | Except.error _ => (p.2 :: r.1, r.2)
    else (p.2 :: r.1, r.2)

/-- `SlideGeneratorNode._calculate_overall_quality` (lines 255-272). -/
def calculate_overall_quality (slides : List SlideContent) : ℚ :=
  if slides = [] then 0
  else
    ((slides.map fun slide =>
        (if slide.title.trim ≠ "" then (3/10 : ℚ) else 0) +
        (if slide.bullet_points ≠ [] then (2/5 : ℚ) else 0) +
        (if slide.speaker_notes.trim ≠ "" then (3/10 : ℚ) else 0)).sum) /
      (slides.length : ℚ)

/-- The slide list produced by
`SlideGeneratorNode.optimize_low_quality_slides`: the kept slides of the
first pass followed by the successful optimization results of the second
pass (failed optimizations contribute nothing — neither the revision nor
the original is appended). -/
def optimize_low_quality_slides (slides : List SlideContent)
    (sections : List DocumentSection) (env : OptimizeEnv) : List SlideContent :=
  let fp := optimizeFirstPass sections env slides.enum
  fp.1 ++ fp.2.filterMap fun p =>
    match env.optRes p.1 with
    | Except.ok s => some s
    | Except.error _ => none

/-- Specification view of the first pass: the slide an indexed input
contributes to the kept list, if any. -/
def optimizeKept (sections : List DocumentSection) (env : OptimizeEnv)
    (p : Nat × SlideContent) : Option SlideContent :=
  if section_found sections p.2 then
    match env.evalRes p.1 with
    | Except.ok q => if q.passed then some p.2 else none
    | Except.error _ => some p.2
  else some p.2

/-- Specification view of the second pass: the revision an indexed input
contributes to the appended optimization results, if any. -/
def optimizeResult (sections : List DocumentSection) (env : OptimizeEnv)
    (p : Nat × SlideContent) : Option SlideContent :=
  if section_found sections p.2 then
    match env.evalRes p.1 with
    | Except.ok q =>
      if q.passed then none
      else
        match env.optRes p.1 with
        | Except.ok s => some s
        | Except.error _ => none
    | Except.error _ => none
  else none

/-- An indexed input slide is dropped: its section was found, its
evaluation reported `passed=false`, and its optimization call failed. -/
def optimizeDropped (sections : List DocumentSection) (env : OptimizeEnv)
    (p : Nat × SlideContent) : Bool :=
  section_found sections p.2 &&
  (match env.evalRes p.1 with
   | Except.ok q =>
     !q.passed &&
       (match env.optRes p.1 with
        | Except.ok _ => false
        | Except.error _ => true)
   | Except.error _ => false)

/-- Environment for the C10 witness: slide 0 fails evaluation and its
optimization call fails (dropped); slide 1 passes evaluation (kept). -/
def c10Env : OptimizeEnv :=
  { evalRes := fun i =>
      if i = 0 then Except.ok (mkScore (1/2) false) else Except.ok (mkScore 1 true)
    optRes := fun _ => Except.error "optimize failed" }

/-! ## Batch generation (`slide_generator.py` lines 27-97) -/

/-- One entry of the `failed_slides` list of `generate_slides`. -/
structure FailedSlide where
  section_index : Nat
  section_title : String
  error : String
  deriving DecidableEq

/-- `PresentationData` plus its `SlidesGenerationSummary`
(`src/models/slide.py`), restricted to the fields the orchestration core
reads or writes (`generation_options` and timing fields omitted). -/
structure PresentationData where
  slides : List SlideContent
  failed_slides : List FailedSlide
  speaker_script : String
  summary_total_sections : Nat
  summary_successful_slides : Nat
  summary_failed_slides : Nat
  overall_quality_score : ℚ
  total_cost_usd : ℚ
  deriving DecidableEq

/-- `SlideGeneratorNode.generate_slides`: one
`_generate_single_slide_with_quality_control` run per section (attempt
schedule `attempts i` for section index `i`; `asyncio.gather` preserves
input order), exceptions collected as failed-slide records, then the
speaker script (only attempted when some slide succeeded; a failure
leaves it empty) and the summary. -/
def generate_slides (sections : List DocumentSection)
    (attempts : Nat → List AttemptOutcome) (script : Except String String) :
    PresentationData :=
  let results := sections.enum.map fun p =>
    (p.1, p.2, generate_single_slide_with_quality_control p.2 (attempts p.1))
  let successful := results.filterMap fun r =>
    match r.2.2 with
    | Except.ok g => some g
    | Except.error _ => none
  let failed := results.filterMap fun r =>
    match r.2.2 with
    | Except.error e =>
      some { section_index := r.1, section_title := r.2.1.title, error := e }
    | Except.ok _ => none
  let slides := successful.map GenSuccess.slide
  let speaker_script :=
    if slides ≠ [] then
      match script with
      | Except.ok s => s
      | Except.error _ => ""
    else ""
  { slides := slides
    failed_slides := failed
    speaker_script := speaker_script
    summary_total_sections := sections.length
    summary_successful_slides := slides.length
    summary_failed_slides := failed.length
    overall_quality_score := calculate_overall_quality slides
    total_cost_usd := (successful.map GenSuccess.cost).sum }

/-! ## Workflow state and step ledger (`src/models/workflow.py`) -/

/-- `WorkflowStatus`. -/
inductive WorkflowStatus
  | pending
  | running
  | completed
  | failed
  | retrying
  deriving DecidableEq

/-- `ProcessingStep`. -/
inductive ProcessingStep
  | document_parsing
  | quality_check
  | slide_generation
  | quality_evaluation
  | slide_optimization
  | narration_generation
  | output_assembly
  deriving DecidableEq

/-- The step payload dictionary: the transition predicates read only the
`needs_optimization` key (`ppt_workflow.py` line 398); every other key is
opaque and irrelevant to control flow. -/
structure StepData where
  needs_optimization : Option Bool := none
  deriving DecidableEq

/-- `StepResult` (wall-clock fields `start_time`/`end_time`/`duration`
omitted). -/
structure StepResult where
  step : ProcessingStep
  status : WorkflowStatus
  error_message : Option String := none
  retry_count : Nat := 0
  data : Option StepData := none
  deriving DecidableEq

/-- `StepResult.mark_completed`: set status; `if data:` keeps the old
payload when none is supplied. -/
def StepResult.mark_completed (r : StepResult) (d : Option StepData) : StepResult :=
  { r with status := WorkflowStatus.completed
           data := match d with
             | some x => some x
             | none => r.data }

/-- `StepResult.mark_failed`. -/
def StepResult.mark_failed (r : StepResult) (msg : String) : StepResult :=
  { r with status := WorkflowStatus.failed, error_message := some msg }

/-- `WorkflowError`. -/
structure WorkflowError where
  step : ProcessingStep
  error_type : String
  error_message : String
  is_recoverable : Bool := true
  deriving DecidableEq

/-- `WorkflowConfiguration`, restricted to the fields the transition
logic reads. -/
structure WorkflowConfiguration where
  max_retries : Nat := 3
  quality_threshold : ℚ := (4/5 : ℚ)
  enable_optimization : Bool := true
  deriving DecidableEq

/-- `WorkflowState` (the `processed_document` carries only its section
list — the other document fields never influence orchestration; the
narration payload is abstracted to its slide count). -/
structure WorkflowState where
  status : WorkflowStatus := WorkflowStatus.pending
  current_step : Option ProcessingStep := none
  configuration : WorkflowConfiguration
  processed_document : Option (List DocumentSection) := none
  presentation_data : Option PresentationData := none
  narration_slide_count : Option Nat := none
  step_results : List StepResult := []
  errors : List WorkflowError := []
  deriving DecidableEq

/-- `WorkflowState.start_step`: unconditionally appends a fresh running
attempt. -/
def WorkflowState.start_step (st : WorkflowState) (step : ProcessingStep) :
    WorkflowState :=
  { st with current_step := some step
            step_results := st.step_results ++
              [{ step := step, status := WorkflowStatus.running }] }

/-- The `for result in reversed(self.step_results)` scan of
`complete_step`/`fail_step`, acting on the reversed list: mark the first
matching running attempt with `f` and stop; no match leaves the list
unchanged. -/
def markFirstRunning (step : ProcessingStep) (f : StepResult → StepResult) :
    List StepResult → List StepResult
  | [] => []
  | r :: rs =>
    if r.step = step ∧ r.status = WorkflowStatus.running then f r :: rs
    else r :: markFirstRunning step f rs

/-- `WorkflowState.complete_step`. -/
def WorkflowState.complete_step (st : WorkflowState) (step : ProcessingStep)
    (d : Option StepData) : WorkflowState :=
  { st with step_results :=
      (markFirstRunning step (fun r => r.mark_completed d)
        st.step_results.reverse).reverse }

/-- `WorkflowState.fail_step`. -/
def WorkflowState.fail_step (st : WorkflowState) (step : ProcessingStep)
    (msg : String) : WorkflowState :=
  { st with step_results :=
      (markFirstRunning step (fun r => r.mark_failed msg)
        st.step_results.reverse).reverse }

/-- `WorkflowState.add_error`. -/
def WorkflowState.add_error (st : WorkflowState) (step : ProcessingStep)
    (etype emsg : String) : WorkflowState :=
  { st with errors := st.errors ++
      [{ step := step, error_type := etype, error_message := emsg }] }

/-- `WorkflowState.get_step_result`: most recent attempt for the step. -/
def WorkflowState.get_step_result (st : WorkflowState) (step : ProcessingStep) :
    Option StepResult :=
  st.step_results.reverse.find? fun r => r.step == step

/-- `WorkflowState.is_step_failed`. -/
def WorkflowState.is_step_failed (st : WorkflowState) (step : ProcessingStep) : Bool :=
  match st.get_step_result step with
  | some r => r.status == WorkflowStatus.failed
  | none => false

/-- `WorkflowState.get_retry_count`: attempts minus one, floored at 0
(natural subtraction). -/
def WorkflowState.get_retry_count (st : WorkflowState) (step : ProcessingStep) : Nat :=
  (st.step_results.countP fun r => r.step == step) - 1

/-- `WorkflowState.mark_completed` (timing fields omitted). -/
def WorkflowState.mark_completed (st : WorkflowState) : WorkflowState :=
  { st with status := WorkflowStatus.completed }

/-- `WorkflowState.mark_failed` (stores neither the message nor timing —
only the status, as in the source). -/
def WorkflowState.mark_failed (st : WorkflowState) (_msg : String) : WorkflowState :=
  { st with status := WorkflowStatus.failed }

/-! ## The pipeline state machine (`src/workflow/ppt_workflow.py`) -/

/-- The LangGraph nodes of `_build_workflow_graph`. -/
inductive NodeId
  | document_parser_node
  | quality_check_node
  | slide_generator_node
  | quality_evaluator_node
  | slide_optimizer_node
  | narration_generator_node
  | output_assembler_node
  | error_handler_node
  deriving DecidableEq

/-- `ProcessedDocument.has_content` (`src/models/document.py`). -/
def has_content (sections : List DocumentSection) : Bool :=
  decide (sections.length > 0) && sections.any fun s => s.content.trim != ""

/-- `DocumentParserNode.validate_document_quality` reduced to its
`is_valid` verdict: valid iff no issue was recorded, i.e. no section has
empty (stripped) content and none lacks a (stripped) title. -/
def document_is_valid (sections : List DocumentSection) : Bool :=
  sections.all fun s => (s.content.trim != "") && (s.title.trim != "")

/-- The external-call outcomes available to one node visit:
`parse` for the document parser, `gen_attempts`/`speaker_script` for the
generator, `get_provider_ok` for the `get_provider()` lookups of the
evaluator/optimizer/narration nodes, `eval_res` for the evaluator, and
`opt_env` for the optimizer. -/
structure VisitEnv where
  parse : Except String (List DocumentSection)
  gen_attempts : Nat → List AttemptOutcome
  speaker_script : Except String String
  get_provider_ok : Bool
  eval_res : Nat → Except String QualityScore
  opt_env : OptimizeEnv

/-- `_document_parsing_node`: a raised exception is preceded by
`fail_step` and `add_error` and then propagates (the `some` component). -/
def document_parsing_node (st : WorkflowState) (v : VisitEnv) :
    WorkflowState × Option String :=
  let st := st.start_step ProcessingStep.document_parsing
  match v.parse with
  | Except.ok doc =>
    let st := { st with processed_document := some doc }
    (st.complete_step ProcessingStep.document_parsing (some {}), none)
  | Except.error e =>
    ((st.fail_step ProcessingStep.document_parsing e).add_error
      ProcessingStep.document_parsing "Exception" e, some e)

/-- `_quality_check_node`: raises when the parsed document is absent or
empty, or when validation reports invalid; otherwise completes.  The
validation itself (`validate_document_quality`) is deterministic. -/
def quality_check_node (st : WorkflowState) (_v : VisitEnv) :
    WorkflowState × Option String :=
  let st := st.start_step ProcessingStep.quality_check
  let fail := fun (msg : String) =>
    ((st.fail_step ProcessingStep.quality_check msg).add_error
      ProcessingStep.quality_check "ValueError" msg, some msg)
  match st.processed_document with
  | none => fail "文档解析结果为空或无有效内容"
  | some sections =>
    if has_content sections = false then fail "文档解析结果为空或无有效内容"
    else if document_is_valid sections = false then fail "文档质量检查失败"
    else (st.complete_step ProcessingStep.quality_check (some {}), none)

/-- `_slide_generation_node`.  `generate_slides` isolates every per-slide
failure and never raises, so the node only raises when the parsed
document is missing. -/
def slide_generation_node (st : WorkflowState) (v : VisitEnv) :
    WorkflowState × Option String :=
  let st := st.start_step ProcessingStep.slide_generation
  match st.processed_document with
  | none =>
    ((st.fail_step ProcessingStep.slide_generation "没有可用的文档数据").add_error
      ProcessingStep.slide_generation "ValueError" "没有可用的文档数据",
      some "没有可用的文档数据")
  | some sections =>
    let pres := generate_slides sections v.gen_attempts v.speaker_script
    let st := { st with presentation_data := some pres }
    (st.complete_step ProcessingStep.slide_generation (some {}), none)

/-- `_quality_evaluation_node`: raises when its inputs are missing or the
provider lookup fails; otherwise stores the batch verdict in the step
data and completes. -/
def quality_evaluation_node (st : WorkflowState) (v : VisitEnv) :
    WorkflowState × Option String :=
  let st := st.start_step ProcessingStep.quality_evaluation
  let fail := fun (msg : String) =>
    ((st.fail_step ProcessingStep.quality_evaluation msg).add_error
      ProcessingStep.quality_evaluation "Exception" msg, some msg)
  match st.presentation_data, st.processed_document with
  | some pres, some sections =>
    if v.get_provider_ok = false then fail "无法获取提供者"
    else
      let ev := evaluate_presentation_quality pres.slides sections
        st.configuration.quality_threshold v.eval_res
      (st.complete_step ProcessingStep.quality_evaluation
        (some { needs_optimization := some ev.needs_optimization }), none)
  | _, _ => fail "缺少必要的数据进行质量评估"

/-- `_slide_optimization_node`. -/
def slide_optimization_node (st : WorkflowState) (v : VisitEnv) :
    WorkflowState × Option String :=
  let st := st.start_step ProcessingStep.slide_optimization
  let fail := fun (msg : String) =>
    ((st.fail_step ProcessingStep.slide_optimization msg).add_error
      ProcessingStep.slide_optimization "Exception" msg, some msg)
  match st.presentation_data, st.processed_document with
  | some pres, some sections =>
    if v.get_provider_ok = false then fail "无法获取提供者"
    else
      let newSlides := optimize_low_quality_slides pres.slides sections v.opt_env
      let newPres := { pres with
        slides := newSlides
        overall_quality_score := calculate_overall_quality newSlides }
      ({ st with presentation_data := some newPres }.complete_step
        ProcessingStep.slide_optimization (some {}), none)
  | _, _ => fail "缺少必要的数据进行优化"

/-- `_narration_generation_node`: per-slide narration failures fall back
internally and never raise; only a missing presentation or a failed
provider lookup raises.  The narration payload is abstracted to its
slide count. -/
def narration_generation_node (st : WorkflowState) (v : VisitEnv) :
    WorkflowState × Option String :=
  let st := st.start_step ProcessingStep.narration_generation
  let fail := fun (msg : String) =>
    ((st.fail_step ProcessingStep.narration_generation msg).add_error
      ProcessingStep.narration_generation "Exception" msg, some msg)
  match st.presentation_data with
  | none => fail "没有可用的演示文稿数据"
  | some pres =>
    if v.get_provider_ok = false then fail "无法获取提供者"
    else
      ({ st with narration_slide_count := some pres.slides.length }.complete_step
        ProcessingStep.narration_generation (some {}), none)

/-- `_output_assembly_node`: always marks the workflow completed and
completes its step; its body performs no external call and cannot
raise. -/
def output_assembly_node (st : WorkflowState) (_v : VisitEnv) :
    WorkflowState × Option String :=
  let st := st.start_step ProcessingStep.output_assembly
  let st := st.mark_completed
  (st.complete_step ProcessingStep.output_assembly (some {}), none)

/-- `_error_handler_node`: marks the workflow failed with the latest
recorded error message (or the fixed default). -/
def error_handler_node (st : WorkflowState) (_v : VisitEnv) :
    WorkflowState × Option String :=
  let msg := match st.errors.getLast? with
    | some e => e.error_message
    | none => "工作流执行失败"
  (st.mark_failed msg, none)

/-- Dispatch of node bodies. -/
def runNode (st : WorkflowState) (v : VisitEnv) : NodeId → WorkflowState × Option String
  | NodeId.document_parser_node => document_parsing_node st v
  | NodeId.quality_check_node => quality_check_node st v
  | NodeId.slide_generator_node => slide_generation_node st v
  | NodeId.quality_evaluator_node => quality_evaluation_node st v
  | NodeId.slide_optimizer_node => slide_optimization_node st v
  | NodeId.narration_generator_node => narration_generation_node st v
  | NodeId.output_assembler_node => output_assembly_node st v
  | NodeId.error_handler_node => error_handler_node st v

/-- `_should_continue_after_quality_check`: "continue" unless the
quality-check step is failed. -/
def should_continue_after_quality_check (st : WorkflowState) : Bool :=
  !(st.is_step_failed ProcessingStep.quality_check)

/-- The three outcomes of `_should_optimize_slides`: `optimize`,
`proceed` (the source's "continue"), `retry`. -/
inductive OptimizeDecision
  | optimize
  | proceed
  | retry
  deriving DecidableEq

/-- `_should_optimize_slides` (lines 385-402). -/
def should_optimize_slides (st : WorkflowState) : OptimizeDecision :=
  if st.is_step_failed ProcessingStep.quality_evaluation then
    if st.get_retry_count ProcessingStep.slide_generation <
        st.configuration.max_retries then
      OptimizeDecision.retry
    else OptimizeDecision.proceed
  else
    match st.get_step_result ProcessingStep.quality_evaluation with
    | some r =>
      match r.data with
      | some d =>
        if (d.needs_optimization.getD false) && st.configuration.enable_optimization
          then OptimizeDecision.optimize
          else OptimizeDecision.proceed
      | none => OptimizeDecision.proceed
    | none => OptimizeDecision.proceed

/-- The edges of `_build_workflow_graph` (lines 46-103): `none` is END. -/
def nextNode (st : WorkflowState) : NodeId → Option NodeId
  | NodeId.document_parser_node => some NodeId.quality_check_node
  | NodeId.quality_check_node =>
    if should_continue_after_quality_check st then some NodeId.slide_generator_node
    else some NodeId.error_handler_node
  | NodeId.slide_generator_node => some NodeId.quality_evaluator_node
  | NodeId.quality_evaluator_node =>
    match should_optimize_slides st with
    | OptimizeDecision.optimize => some NodeId.slide_optimizer_node
    | OptimizeDecision.proceed => some NodeId.narration_generator_node
    | OptimizeDecision.retry => some NodeId.slide_generator_node
  | NodeId.slide_optimizer_node => some NodeId.narration_generator_node
  | NodeId.narration_generator_node => some NodeId.output_assembler_node
  | NodeId.output_assembler_node => none
  | NodeId.error_handler_node => none

/-- Outcome of a (sub-)run of the graph driver: the final state, the
nodes visited in order, and — when a node raised — the propagated error
(after which `_execute_workflow` marks the run failed and re-raises). -/
structure RunResult where
  state : WorkflowState
  visited : List NodeId
  aborted : Option String

/-- The graph driver (`ainvoke` plus the exception handling of
`_execute_workflow`): execute the node, on a raise mark the run failed
and stop; otherwise follow the edge; `none` means the fuel was
insufficient (used only to express termination).  `t` counts node visits
and indexes the environment. -/
def runFrom (env : Nat → VisitEnv) :
    Nat → Nat → NodeId → WorkflowState → Option RunResult
  | 0, _, _, _ => none
  | fuel + 1, t, node, st =>
    match runNode st (env t) node with
    | (st1, some e) =>
      some { state := st1.mark_failed e, visited := [node], aborted := some e }
    | (st1, none) =>
      match nextNode st1 node with
      | none => some { state := st1, visited := [node], aborted := none }
      | some nxt =>
        match runFrom env fuel (t + 1) nxt st1 with
        | none => none
        | some r => some { r with visited := node :: r.visited }

/-- `PPTWorkflow.process_document` / `_execute_workflow` entry: status is
set to running and the graph starts at the document parser. -/
def run_pipeline (env : Nat → VisitEnv) (config : WorkflowConfiguration)
    (fuel : Nat) : Option RunResult :=
  runFrom env fuel 0 NodeId.document_parser_node
    { status := WorkflowStatus.running, configuration := config }

/-- A topological rank for the (retry-edge-free) reachable graph. -/
def nodeRank : NodeId → Nat
  | NodeId.document_parser_node => 0
  | NodeId.quality_check_node => 1
  | NodeId.slide_generator_node => 2
  | NodeId.quality_evaluator_node => 3
  | NodeId.slide_optimizer_node => 4
  | NodeId.narration_generator_node => 5
  | NodeId.output_assembler_node => 6
  | NodeId.error_handler_node => 7

/-- An environment in which every external call fails and no provider is
available. -/
def trivEnv : Nat → VisitEnv := fun _ =>
  { parse := Except.error "provider unavailable"
    gen_attempts := fun _ => []
    speaker_script := Except.error "provider unavailable"
    get_provider_ok := false
    eval_res := fun _ => Except.error "provider unavailable"
    opt_env := { evalRes := fun _ => Except.error "provider unavailable"
                 optRes := fun _ => Except.error "provider unavailable" } }

/-- Environment for the C7 sub-run: the provider lookup succeeds; no
per-item call is ever made because the batch is empty. -/
def c7Env : Nat → VisitEnv := fun _ =>
  { parse := Except.error "unused"
    gen_attempts := fun _ => []
    speaker_script := Except.ok ""
    get_provider_ok := true
    eval_res := fun _ => Except.error "unused"
    opt_env := { evalRes := fun _ => Except.error "unused"
                 optRes := fun _ => Except.error "unused" } }

/-- A running state carrying an empty unit list, from which the
generation step starts. -/
def c7State : WorkflowState :=
  { status := WorkflowStatus.running, configuration := {}
    processed_document := some [] }

/-- The empty presentation produced by `generate_slides` on an empty
section list. -/
def c7Pres : PresentationData :=
  { slides := [], failed_slides := [], speaker_script := ""
    summary_total_sections := 0, summary_successful_slides := 0
    summary_failed_slides := 0, overall_quality_score := 0, total_cost_usd := 0 }

/-- State after the generation node of the C7 sub-run. -/
def c7StA : WorkflowState :=
  { status := WorkflowStatus.running
    current_step := some ProcessingStep.slide_generation
    configuration := {}
    processed_document := some []
    presentation_data := some c7Pres
    step_results := [{ step := ProcessingStep.slide_generation
                       status := WorkflowStatus.completed
                       data := some {} }] }

/-- State after the evaluation node: the batch verdict
`needs_optimization = true` is stored in the step data. -/
def c7StB : WorkflowState :=
  { c7StA with
    current_step := some ProcessingStep.quality_evaluation
    step_results := c7StA.step_results ++
      [{ step := ProcessingStep.quality_evaluation
         status := WorkflowStatus.completed
         data := some { needs_optimization := some true } }] }

/-- State after the optimizer node (optimizing an empty batch). -/
def c7StC : WorkflowState :=
  { c7StB with
    current_step := some ProcessingStep.slide_optimization
    step_results := c7StB.step_results ++
      [{ step := ProcessingStep.slide_optimization
         status := WorkflowStatus.completed
         data := some {} }] }

/-- State after the narration node. -/
def c7StD : WorkflowState :=
  { c7StC with
    current_step := some ProcessingStep.narration_generation
    narration_slide_count := some 0
    step_results := c7StC.step_results ++
      [{ step := ProcessingStep.narration_generation
         status := WorkflowStatus.completed
         data := some {} }] }

/-- State after the assembly node: the run is completed. -/
def c7StE : WorkflowState :=
  { c7StD with
    status := WorkflowStatus.completed
    current_step := some ProcessingStep.output_assembly
    step_results := c7StD.step_results ++
      [{ step := ProcessingStep.output_assembly
         status := WorkflowStatus.completed
         data := some {} }] }

/-- A ledger in which the latest quality-evaluation attempt failed and
slide generation has run once (retry count 0). -/
def c6FailSt : WorkflowState :=
  { configuration := {}
    step_results := [{ step := ProcessingStep.slide_generation
                       status := WorkflowStatus.completed }
                     , { step := ProcessingStep.quality_evaluation
                         status := WorkflowStatus.failed }] }

/-- A ledger holding exactly one running generation attempt. -/
def c9St : WorkflowState :=
  { configuration := {}
    step_results := [{ step := ProcessingStep.slide_generation
                       status := WorkflowStatus.running }] }

/-! ## C1 helper lemmas and theorem -/

/-- `List.foldl pickBetter` returns the first candidate attaining the
maximum overall score: it is a member, it dominates every candidate, and
every candidate strictly before it scores strictly less. -/
theorem foldl_pickBetter_spec (c : SlideContent × QualityScore)
    (cs : List (SlideContent × QualityScore)) :
    cs.foldl pickBetter c ∈ c :: cs ∧
    (∀ x ∈ c :: cs, x.2.overall_score ≤ (cs.foldl pickBetter c).2.overall_score) ∧
    ∃ l₁ l₂, c :: cs = l₁ ++ (cs.foldl pickBetter c) :: l₂ ∧
      ∀ x ∈ l₁, x.2.overall_score < (cs.foldl pickBetter c).2.overall_score := by
  induction cs generalizing c with
  | nil =>
    refine ⟨by simp, ?_, [], [], rfl, by simp⟩
    intro x hx
    rw [List.mem_singleton.mp hx]
    exact le_refl _
  | cons c' cs' ih =>
    have hstep : (c' :: cs').foldl pickBetter c = cs'.foldl pickBetter (pickBetter c c') :=
      rfl
    by_cases h : c'.2.overall_score > c.2.overall_score
    · have hpb : pickBetter c c' = c' := if_pos h
      obtain ⟨hmem, hmax, l₁, l₂, hdec, hlt⟩ := ih c'
      rw [hstep, hpb]
      refine ⟨List.mem_cons_of_mem _ hmem, ?_, c :: l₁, l₂, ?_, ?_⟩
      · intro x hx
        rcases List.mem_cons.mp hx with hx | hx
        · subst hx
          exact le_of_lt (lt_of_lt_of_le h (hmax c' (List.mem_cons_self _ _)))
        · exact hmax x hx
      · simpa using congrArg (List.cons c) hdec
      · intro x hx
        rcases List.mem_cons.mp hx with hx | hx
        · subst hx
          exact lt_of_lt_of_le h (hmax c' (List.mem_cons_self _ _))
        · exact hlt x hx
    · have hpb : pickBetter c c' = c := if_neg h
      have hle : c'.2.overall_score ≤ c.2.overall_score := not_lt.mp h
      obtain ⟨hmem, hmax, l₁, l₂, hdec, hlt⟩ := ih c
      rw [hstep, hpb]
      have hcmax : c.2.overall_score ≤ (cs'.foldl pickBetter c).2.overall_score :=
        hmax c (List.mem_cons_self _ _)
      refine ⟨?_, ?_, ?_⟩
      · rcases List.mem_cons.mp hmem with hm | hm
        · rw [hm]
          exact List.mem_cons_self _ _
        · exact List.mem_cons_of_mem _ (List.mem_cons_of_mem _ hm)
      · intro x hx
        rcases List.mem_cons.mp hx with hx | hx
        · subst hx
          exact hcmax
        rcases List.mem_cons.mp hx with hx | hx
        · subst hx
          exact le_trans hle hcmax
        · exact hmax x (List.mem_cons_of_mem _ hx)
      · cases l₁ with
        | nil =>
          have hc : c = cs'.foldl pickBetter c := by
            have := hdec
            simp at this
            exact this.1
          refine ⟨[], c' :: cs', ?_, by simp⟩
          simp [← hc]
        | cons a t =>
          have ha : c = a ∧ cs' = t ++ cs'.foldl pickBetter c :: l₂ := by
            have := hdec
            simp at this
            exact this
          refine ⟨c :: c' :: t, l₂, ?_, ?_⟩
          · conv_lhs => rw [ha.2]
            simp
          · intro x hx
            have hclt : c.2.overall_score < (cs'.foldl pickBetter c).2.overall_score :=
              ha.1 ▸ hlt a (List.mem_cons_self _ _)
            rcases List.mem_cons.mp hx with hx | hx
            · subst hx
              exact hclt
            rcases List.mem_cons.mp hx with hx | hx
            · subst hx
              exact lt_of_le_of_lt hle hclt
            · exact hlt x (List.mem_cons_of_mem _ hx)

/-- Loop invariant: starting from an incumbent best pair `b`, a schedule
in which every attempt fully fails evaluation drives the loop to the
fold of `pickBetter` over all inspected candidates, consuming every
attempt. -/
theorem genLoop_allFailing (sec : DocumentSection) :
    ∀ outcomes : List AttemptOutcome, outcomes.all attemptAllFailing = true →
      ∀ (b : SlideContent × QualityScore) (cost : ℚ) (idx : Nat),
      ∃ fcost : ℚ, genLoop sec outcomes (some b) cost idx =
        Except.ok
          { slide := ((attemptCandidates outcomes).foldl pickBetter b).1
            quality_info := ((attemptCandidates outcomes).foldl pickBetter b).2
            attempts := idx + outcomes.length
            cost := fcost } := by
  intro outcomes
  induction outcomes with
  | nil =>
    intro _ b cost idx
    exact ⟨cost, by simp [genLoop, attemptCandidates]⟩
  | cons o rest ih =>
    intro hall b cost idx
    rw [List.all_cons, Bool.and_eq_true] at hall
    obtain ⟨ho, hrest⟩ := hall
    unfold attemptAllFailing at ho
    cases hg : o.gen with
    | error e =>
      rw [hg] at ho
      simp at ho
    | ok s =>
      cases he : o.eval with
      | error e =>
        rw [hg, he] at ho
        simp at ho
      | ok q =>
        rw [hg, he] at ho
        simp only [Bool.and_eq_true, Bool.not_eq_true'] at ho
        obtain ⟨⟨-, hq⟩, hopt⟩ := ho
        obtain ⟨bs, bq⟩ := b
        cases rest with
        | nil =>
          refine ⟨cost + estimate_generation_cost sec, ?_⟩
          simp [genLoop, hg, he, hq, attemptCandidates, pickBetter]
        | cons r rs =>
          cases hop : o.opt with
          | error e =>
            have hstep :
                genLoop sec (o :: r :: rs) (some (bs, bq)) cost idx =
                  genLoop sec (r :: rs) (some (pickBetter (bs, bq) (s, q)))
                    (cost + estimate_generation_cost sec) (idx + 1) := by
              simp [genLoop, hg, he, hq, hop, pickBetter]
            obtain ⟨fcost, hrec⟩ :=
              ih hrest (pickBetter (bs, bq) (s, q))
                (cost + estimate_generation_cost sec) (idx + 1)
            refine ⟨fcost, ?_⟩
            rw [hstep, hrec]
            have hcand : attemptCandidates (o :: r :: rs) =
                (s, q) :: attemptCandidates (r :: rs) := by
              simp [attemptCandidates, hg, he, hop]
            rw [hcand, List.foldl_cons]
            simp [GenSuccess.mk.injEq]
            omega
          | ok c =>
            rw [hop] at hopt
            simp only [Bool.not_eq_true'] at hopt
            have hstep :
                genLoop sec (o :: r :: rs) (some (bs, bq)) cost idx =
                  genLoop sec (r :: rs)
                    (some (pickBetter (pickBetter (bs, bq) (s, q)) c))
                    (cost + estimate_generation_cost sec + estimate_generation_cost sec)
                    (idx + 1) := by
              obtain ⟨cs', cq'⟩ := c
              have hopt2 : cq'.passed = false := hopt
              simp [genLoop, hg, he, hq, hop, hopt2, pickBetter]
            obtain ⟨fcost, hrec⟩ :=
              ih hrest (pickBetter (pickBetter (bs, bq) (s, q)) c)
                (cost + estimate_generation_cost sec + estimate_generation_cost sec)
                (idx + 1)
            refine ⟨fcost, ?_⟩
            rw [hstep, hrec]
            have hcand : attemptCandidates (o :: r :: rs) =
                (s, q) :: c :: attemptCandidates (r :: rs) := by
              simp [attemptCandidates, hg, he, hop]
            rw [hcand, List.foldl_cons, List.foldl_cons]
            simp [GenSuccess.mk.injEq]
            omega

/-- Starting the loop with no incumbent: the first generated candidate
seeds the best-so-far, and the result is the `pickBetter` fold over the
whole inspected candidate sequence. -/
theorem genLoop_allFailing_start (sec : DocumentSection)
    (outcomes : List AttemptOutcome) (hne : outcomes ≠ [])
    (hall : outcomes.all attemptAllFailing = true) (cost : ℚ) (idx : Nat) :
    ∃ c₀ cs fcost, attemptCandidates outcomes = c₀ :: cs ∧
      genLoop sec outcomes none cost idx =
        Except.ok
          { slide := (cs.foldl pickBetter c₀).1
            quality_info := (cs.foldl pickBetter c₀).2
            attempts := idx + outcomes.length
            cost := fcost } := by
  cases outcomes with
  | nil => exact absurd rfl hne
  | cons o rest =>
    rw [List.all_cons, Bool.and_eq_true] at hall
    obtain ⟨ho, hrest⟩ := hall
    unfold attemptAllFailing at ho
    cases hg : o.gen with
    | error e =>
      rw [hg] at ho
      simp at ho
    | ok s =>
      cases he : o.eval with
      | error e =>
        rw [hg, he] at ho
        simp at ho
      | ok q =>
        rw [hg, he] at ho
        simp only [Bool.and_eq_true, Bool.not_eq_true'] at ho
        obtain ⟨⟨-, hq⟩, hopt⟩ := ho
        cases rest with
        | nil =>
          refine ⟨(s, q), [], cost + estimate_generation_cost sec, ?_, ?_⟩
          · simp [attemptCandidates, hg, he]
          · simp [genLoop, hg, he, hq]
        | cons r rs =>
          cases hop : o.opt with
          | error e =>
            have hstep :
                genLoop sec (o :: r :: rs) none cost idx =
                  genLoop sec (r :: rs) (some (s, q))
                    (cost + estimate_generation_cost sec) (idx + 1) := by
              simp [genLoop, hg, he, hq, hop]
            obtain ⟨fcost, hrec⟩ :=
              genLoop_allFailing sec (r :: rs) hrest (s, q)
                (cost + estimate_generation_cost sec) (idx + 1)
            refine ⟨(s, q), attemptCandidates (r :: rs), fcost, ?_, ?_⟩
            · simp [attemptCandidates, hg, he, hop]
            · rw [hstep, hrec]
              simp [GenSuccess.mk.injEq]
              omega
          | ok c =>
            rw [hop] at hopt
            simp only [Bool.not_eq_true'] at hopt
            have hstep :
                genLoop sec (o :: r :: rs) none cost idx =
                  genLoop sec (r :: rs) (some (pickBetter (s, q) c))
                    (cost + estimate_generation_cost sec + estimate_generation_cost sec)
                    (idx + 1) := by
              obtain ⟨cs', cq'⟩ := c
              have hopt2 : cq'.passed = false := hopt
              simp [genLoop, hg, he, hq, hopt2, hop, pickBetter]
            obtain ⟨fcost, hrec⟩ :=
              genLoop_allFailing sec (r :: rs) hrest (pickBetter (s, q) c)
                (cost + estimate_generation_cost sec + estimate_generation_cost sec)
                (idx + 1)
            refine ⟨(s, q), c :: attemptCandidates (r :: rs), fcost, ?_, ?_⟩
            · simp [attemptCandidates, hg, he, hop]
            · rw [hstep, hrec, List.foldl_cons]
              simp [GenSuccess.mk.injEq]
              omega

/-- C1: when every generation attempt succeeds and no inspected candidate
(generated or optimized) passes evaluation, the bounded-retry loop
returns successfully (never raises), reports `attempts` equal to the
full attempt budget, and hands back the candidate with the strictly
highest overall score seen — best-so-far is replaced only on strict
improvement, so on equal scores the earlier candidate wins: the returned
pair is a member of the inspected sequence, dominates every inspected
score, and every candidate inspected before it scores strictly less.
In particular (see the witness) for 3 attempts scoring 0.6, 0.75, 0.65
the 0.75 candidate is returned. -/
theorem c1_bounded_retry_returns_first_strict_best (sec : DocumentSection)
    (outcomes : List AttemptOutcome) (hne : outcomes ≠ [])
    (hall : outcomes.all attemptAllFailing = true) :
    ∃ r : GenSuccess,
      generate_single_slide_with_quality_control sec outcomes = Except.ok r ∧
      r.attempts = outcomes.length ∧
      (r.slide, r.quality_info) ∈ attemptCandidates outcomes ∧
      (∀ c ∈ attemptCandidates outcomes,
        c.2.overall_score ≤ r.quality_info.overall_score) ∧
      ∃ l₁ l₂, attemptCandidates outcomes = l₁ ++ (r.slide, r.quality_info) :: l₂ ∧
        ∀ c ∈ l₁, c.2.overall_score < r.quality_info.overall_score := by
  obtain ⟨c₀, cs, fcost, hcand, hrun⟩ :=
    genLoop_allFailing_start sec outcomes hne hall 0 0
  obtain ⟨hmem, hmax, l₁, l₂, hdec, hlt⟩ := foldl_pickBetter_spec c₀ cs
  refine ⟨_, hrun, by simp, ?_, ?_, l₁, l₂, ?_, ?_⟩
  · rw [hcand]
    simpa using hmem
  · intro c hc
    rw [hcand] at hc
    simpa using hmax c (by simpa using hc)
  · rw [hcand]
    simpa using hdec
  · intro c hc
    simpa using hlt c hc

/-- Witness for `c1_bounded_retry_returns_first_strict_best`: the spec
example of 3 failing attempts with overall scores 0.6, 0.75, 0.65; the
0.75 candidate (slide number 2) is returned with `attempts = 3`. -/
theorem c1_bounded_retry_returns_first_strict_best_witness :
    (c1Outcomes ≠ [] ∧ c1Outcomes.all attemptAllFailing = true) ∧
    (∃ r : GenSuccess,
      generate_single_slide_with_quality_control secZero c1Outcomes = Except.ok r ∧
      r.attempts = c1Outcomes.length ∧
      (r.slide, r.quality_info) ∈ attemptCandidates c1Outcomes ∧
      (∀ c ∈ attemptCandidates c1Outcomes,
        c.2.overall_score ≤ r.quality_info.overall_score) ∧
      ∃ l₁ l₂, attemptCandidates c1Outcomes = l₁ ++ (r.slide, r.quality_info) :: l₂ ∧
        ∀ c ∈ l₁, c.2.overall_score < r.quality_info.overall_score) ∧
    generate_single_slide_with_quality_control secZero c1Outcomes =
      Except.ok
        { slide := mkSlide 2, quality_info := mkScore (3/4) false
          attempts := 3, cost := 0 } := by
  refine ⟨⟨?_, ?_⟩, ?_, ?_⟩
  · intro h
    simp [c1Outcomes] at h
  · rfl
  · exact c1_bounded_retry_returns_first_strict_best secZero c1Outcomes
      (by intro h; simp [c1Outcomes] at h) rfl
  · norm_num [generate_single_slide_with_quality_control, genLoop, c1Outcomes, secZero,
      mkSlide, mkScore, estimate_generation_cost]

/-! ## C2 theorems -/

/-- C2 counterexample: a generation failure on a *non-final* attempt does
NOT terminate the loop.  With the 3-attempt schedule `c2Outcomes` (attempt
1 fails to generate, attempt 2 generates a passing candidate) the loop
returns the attempt-2 candidate with `attempts = 2` instead of
propagating the attempt-1 error. -/
theorem c2_nonfinal_failure_not_propagated :
    generate_single_slide_with_quality_control secZero c2Outcomes =
      Except.ok
        { slide := mkSlide 2, quality_info := mkScore (9/10 : ℚ) true
          attempts := 2, cost := 0 } := by
  norm_num [generate_single_slide_with_quality_control, genLoop, c2Outcomes, secZero,
    mkSlide, mkScore, estimate_generation_cost]

/-- C2 (amended): a failure of the generate-item call propagates only on
the final attempt; on a non-final attempt the error is swallowed and the
loop proceeds to the next generation attempt with unchanged best-so-far
state. -/
theorem c2_generation_failure_behaviour (sec : DocumentSection)
    (o : AttemptOutcome) (rest : List AttemptOutcome)
    (best : Option (SlideContent × QualityScore)) (cost : ℚ) (idx : Nat)
    (e : String) (hg : o.gen = Except.error e) :
    (rest = [] → genLoop sec (o :: rest) best cost idx = Except.error e) ∧
    (rest ≠ [] →
      genLoop sec (o :: rest) best cost idx = genLoop sec rest best cost (idx + 1)) := by
  constructor
  · intro h
    subst h
    simp [genLoop, hg]
  · intro h
    cases rest with
    | nil => exact absurd rfl h
    | cons r rs => simp [genLoop, hg]

/-- Witness for `c2_generation_failure_behaviour` at the concrete
schedule `c2Outcomes`: the first attempt fails to generate and the loop
continues into the remaining two attempts. -/
theorem c2_generation_failure_behaviour_witness :
    (List.head? c2Outcomes).map AttemptOutcome.gen =
        some (Except.error "provider failure") ∧
    genLoop secZero c2Outcomes none 0 0 =
      genLoop secZero (List.tail c2Outcomes) none 0 1 := by
  refine ⟨rfl, ?_⟩
  exact (c2_generation_failure_behaviour secZero _ _ none 0 0 "provider failure"
    rfl).2 (by simp [c2Outcomes])

/-! ## C3 and C4: provider fallback routing -/

/-- A successful `execute_with_retry` invocation records exactly one
success on the tracker. -/
theorem execute_with_retry_ok_records_success {α : Type}
    (calls : List (Except String α)) :
    ∀ (t t1 : ProviderTracker) (a : α),
      execute_with_retry t calls = (Except.ok a, t1) →
      t1.successful_requests = t.successful_requests + 1 := by
  induction calls with
  | nil =>
    intro t t1 a h
    simp [execute_with_retry] at h
  | cons c rest ih =>
    intro t t1 a h
    cases c with
    | ok b =>
      simp [execute_with_retry] at h
      rw [← h.2]
    | error e =>
      rw [execute_with_retry] at h
      cases rest with
      | nil => simp at h
      | cons r rs =>
        simp only [List.isEmpty_cons, Bool.false_eq_true, if_false] at h
        have h2 := ih _ t1 a h
        exact h2

/-- A failed `execute_with_retry` invocation with at least one attempt
records at least one failure on the tracker. -/
theorem execute_with_retry_error_records_failure {α : Type}
    (calls : List (Except String α)) :
    ∀ (t t1 : ProviderTracker) (e : String), calls ≠ [] →
      execute_with_retry t calls = (Except.error e, t1) →
      t.failed_requests + 1 ≤ t1.failed_requests := by
  induction calls with
  | nil =>
    intro t t1 e hne
    exact absurd rfl hne
  | cons c rest ih =>
    intro t t1 e _ h
    cases c with
    | ok b =>
      simp [execute_with_retry] at h
    | error e' =>
      rw [execute_with_retry] at h
      cases rest with
      | nil =>
        simp [execute_with_retry] at h
        rw [← h.2]
      | cons r rs =>
        simp only [List.isEmpty_cons, Bool.false_eq_true, if_false] at h
        have := ih _ t1 e (by simp) h
        simp only at this
        omega

/-- C3: in the fallback execution each candidate invocation updates that
candidate provider's tracker: when the invocation succeeds, one success
is recorded on its tracker and the result is returned at once with every
later candidate left untouched; when it fails, at least one failure is
recorded on its tracker in the state from which the remaining candidates
are then tried, the error being retained as the running last error. -/
theorem c3_fallback_updates_tracker_per_candidate {α : Type}
    (t : ProviderTracker) (calls : List (Except String α))
    (rest : List (ProviderTracker × List (Except String α)))
    (last : Option String) (hne : calls ≠ []) :
    (∀ (a : α) (t1 : ProviderTracker),
      execute_with_retry t calls = (Except.ok a, t1) →
      execute_with_fallback last ((t, calls) :: rest) =
        (Except.ok a, t1 :: rest.map Prod.fst) ∧
      t1.successful_requests = t.successful_requests + 1) ∧
    (∀ (e : String) (t1 : ProviderTracker),
      execute_with_retry t calls = (Except.error e, t1) →
      execute_with_fallback last ((t, calls) :: rest) =
        ((execute_with_fallback (some e) rest).1,
          t1 :: (execute_with_fallback (some e) rest).2) ∧
      t.failed_requests + 1 ≤ t1.failed_requests) := by
  constructor
  · intro a t1 h
    refine ⟨?_, execute_with_retry_ok_records_success calls t t1 a h⟩
    simp [execute_with_fallback, h]
  · intro e t1 h
    refine ⟨?_, execute_with_retry_error_records_failure calls t t1 e hne h⟩
    simp [execute_with_fallback, h]

/-- Witness for `c3_fallback_updates_tracker_per_candidate`: a fresh
provider succeeding on its single allowed call; the second candidate is
never touched. -/
theorem c3_fallback_updates_tracker_per_candidate_witness :
    ([Except.ok (42 : Nat)] ≠ ([] : List (Except String Nat))) ∧
    execute_with_retry (⟨0, 0, 0⟩ : ProviderTracker) [Except.ok (42 : Nat)] =
      (Except.ok 42, ⟨1, 1, 0⟩) ∧
    execute_with_fallback none
        [((⟨0, 0, 0⟩ : ProviderTracker), [Except.ok (42 : Nat)]),
         ((⟨5, 5, 0⟩ : ProviderTracker), [Except.error "x"])] =
      (Except.ok 42, [⟨1, 1, 0⟩, ⟨5, 5, 0⟩]) ∧
    (⟨1, 1, 0⟩ : ProviderTracker).successful_requests =
      (⟨0, 0, 0⟩ : ProviderTracker).successful_requests + 1 := by
  have h :=
    (c3_fallback_updates_tracker_per_candidate
      (⟨0, 0, 0⟩ : ProviderTracker) [Except.ok (42 : Nat)]
      [((⟨5, 5, 0⟩ : ProviderTracker), [Except.error "x"])] none
      (by simp)).1 42 ⟨1, 1, 0⟩ rfl
  exact ⟨by simp, rfl, h.1, h.2⟩

/-- If every candidate of the fallback loop fails, the error of the last
candidate (the last recorded error) is what the loop propagates,
whatever the incoming running error was. -/
theorem execute_with_fallback_all_fail {α : Type} :
    ∀ (cands : List (ProviderTracker × List (Except String α))) (hne : cands ≠ [])
      (last : Option String),
      (∀ p ∈ cands, ∃ e t1, execute_with_retry p.1 p.2 = (Except.error e, t1)) →
      ∃ e t1,
        execute_with_retry (cands.getLast hne).1 (cands.getLast hne).2 =
          (Except.error e, t1) ∧
        (execute_with_fallback last cands).1 = Except.error e := by
  intro cands
  induction cands with
  | nil =>
    intro hne
    exact absurd rfl hne
  | cons p qs ih =>
    intro _ last hfail
    obtain ⟨e0, t0, h0⟩ := hfail p (List.mem_cons_self _ _)
    cases qs with
    | nil =>
      refine ⟨e0, t0, ?_, ?_⟩
      · simpa using h0
      · obtain ⟨pt, pc⟩ := p
        simp only at h0
        simp [execute_with_fallback, h0]
    | cons q qs' =>
      obtain ⟨e, t1, hlastr, hres⟩ :=
        ih (by simp) (some e0) (fun x hx => hfail x (List.mem_cons_of_mem _ hx))
      refine ⟨e, t1, ?_, ?_⟩
      · rwa [List.getLast_cons]
      · obtain ⟨pt, pc⟩ := p
        simp only at h0
        have hstep : (execute_with_fallback last ((pt, pc) :: q :: qs')).1 =
            (execute_with_fallback (some e0) (q :: qs')).1 := by
          conv_lhs => rw [execute_with_fallback]
          rw [h0]
        rw [hstep]
        exact hres

/-- C4: if every candidate of the fallback loop fails, the last recorded
error is propagated; and on an empty candidate list the loop fails with
the distinct "no provider available" error (`没有可用的提供者执行方法`)
rather than any provider error.  (At the call level the candidate list
built by lines 125-131 always contains the primary name, so the empty
case is exactly the loop's final `else` branch.) -/
theorem c4_fallback_exhaustion_errors {α : Type} :
    (∀ (cands : List (ProviderTracker × List (Except String α))) (hne : cands ≠ [])
      (last : Option String),
      (∀ p ∈ cands, ∃ e t1, execute_with_retry p.1 p.2 = (Except.error e, t1)) →
      ∃ e t1,
        execute_with_retry (cands.getLast hne).1 (cands.getLast hne).2 =
          (Except.error e, t1) ∧
        (execute_with_fallback last cands).1 = Except.error e) ∧
    execute_with_fallback (α := α) none [] =
      (Except.error "没有可用的提供者执行方法", []) := by
  exact ⟨execute_with_fallback_all_fail, rfl⟩

/-- Witness for `c4_fallback_exhaustion_errors`: two candidates, both
failing their single allowed call; the second candidate's error "b" is
the one propagated. -/
theorem c4_fallback_exhaustion_errors_witness :
    (([((⟨0, 0, 0⟩ : ProviderTracker), [Except.error (α := Nat) "a"]),
       ((⟨0, 0, 0⟩ : ProviderTracker), [Except.error (α := Nat) "b"])] :
        List (ProviderTracker × List (Except String Nat))) ≠ []) ∧
    (∃ e t1,
      execute_with_retry (⟨0, 0, 0⟩ : ProviderTracker) [Except.error (α := Nat) "b"] =
        (Except.error e, t1) ∧
      (execute_with_fallback none
          [((⟨0, 0, 0⟩ : ProviderTracker), [Except.error (α := Nat) "a"]),
           ((⟨0, 0, 0⟩ : ProviderTracker), [Except.error (α := Nat) "b"])]).1 =
        Except.error e) := by
  constructor
  · simp
  · have h := (c4_fallback_exhaustion_errors (α := Nat)).1
      [((⟨0, 0, 0⟩ : ProviderTracker), [Except.error (α := Nat) "a"]),
       ((⟨0, 0, 0⟩ : ProviderTracker), [Except.error (α := Nat) "b"])]
      (by simp) none ?_
    · simpa using h
    · intro p hp
      simp only [List.mem_cons, List.mem_singleton] at hp
      rcases hp with hp | hp | hp
      · subst hp
        exact ⟨"a", ⟨1, 0, 1⟩, rfl⟩
      · subst hp
        exact ⟨"b", ⟨1, 0, 1⟩, rfl⟩
      · exact absurd hp (by simp)

/-! ## C8: quality-gate buckets and suggestions -/

/-- Membership in a conditional singleton. -/
theorem mem_singleton_ite {p : Prop} [Decidable p] (x y : String) :
    (y ∈ if p then [x] else []) ↔ p ∧ y = x := by
  split_ifs with h <;> simp [h]

/-- Membership in the defaulted suggestion list, for a suggestion that is
not the default message. -/
theorem mem_ite_empty_default (y d : String) (l : List String) (hyd : y ≠ d) :
    (y ∈ if l = [] then [d] else l) ↔ y ∈ l := by
  split_ifs with h
  · subst h
    simp [hyd]
  · exact Iff.rfl

/-- The accuracy suggestion is emitted iff strictly more than 30% of the
assessments score accuracy below 0.7. -/
theorem suggestion_accuracy_mem_iff (A : List Assessment) :
    suggestion_accuracy ∈ generate_improvement_suggestions A ↔
      ((A.countP fun a => decide (a.accuracy_score < (7/10 : ℚ))) : ℚ) >
        (A.length : ℚ) * (3/10 : ℚ) := by
  have d0 : suggestion_accuracy ≠ suggestion_no_slides := by decide
  have dd : suggestion_accuracy ≠ suggestion_default := by decide
  have d2 : suggestion_accuracy ≠ suggestion_coherence := by decide
  have d3 : suggestion_accuracy ≠ suggestion_clarity := by decide
  have d4 : suggestion_accuracy ≠ suggestion_completeness := by decide
  by_cases hlen : A.length = 0
  · have hA : A = [] := List.length_eq_zero.mp hlen
    subst hA
    simp [generate_improvement_suggestions, d0]
  · simp only [generate_improvement_suggestions, if_neg hlen]
    rw [mem_ite_empty_default _ _ _ dd]
    simp [List.mem_append, mem_singleton_ite, d2, d3, d4]

/-- The coherence suggestion is emitted iff strictly more than 30% of the
assessments score coherence below 0.7. -/
theorem suggestion_coherence_mem_iff (A : List Assessment) :
    suggestion_coherence ∈ generate_improvement_suggestions A ↔
      ((A.countP fun a => decide (a.coherence_score < (7/10 : ℚ))) : ℚ) >
        (A.length : ℚ) * (3/10 : ℚ) := by
  have d0 : suggestion_coherence ≠ suggestion_no_slides := by decide
  have dd : suggestion_coherence ≠ suggestion_default := by decide
  have d1 : suggestion_coherence ≠ suggestion_accuracy := by decide
  have d3 : suggestion_coherence ≠ suggestion_clarity := by decide
  have d4 : suggestion_coherence ≠ suggestion_completeness := by decide
  by_cases hlen : A.length = 0
  · have hA : A = [] := List.length_eq_zero.mp hlen
    subst hA
    simp [generate_improvement_suggestions, d0]
  · simp only [generate_improvement_suggestions, if_neg hlen]
    rw [mem_ite_empty_default _ _ _ dd]
    simp [List.mem_append, mem_singleton_ite, d1, d3, d4]

/-- The clarity suggestion is emitted iff strictly more than 30% of the
assessments score clarity below 0.7. -/
theorem suggestion_clarity_mem_iff (A : List Assessment) :
    suggestion_clarity ∈ generate_improvement_suggestions A ↔
      ((A.countP fun a => decide (a.clarity_score < (7/10 : ℚ))) : ℚ) >
        (A.length : ℚ) * (3/10 : ℚ) := by
  have d0 : suggestion_clarity ≠ suggestion_no_slides := by decide
  have dd : suggestion_clarity ≠ suggestion_default := by decide
  have d1 : suggestion_clarity ≠ suggestion_accuracy := by decide
  have d2 : suggestion_clarity ≠ suggestion_coherence := by decide
  have d4 : suggestion_clarity ≠ suggestion_completeness := by decide
  by_cases hlen : A.length = 0
  · have hA : A = [] := List.length_eq_zero.mp hlen
    subst hA
    simp [generate_improvement_suggestions, d0]
  · simp only [generate_improvement_suggestions, if_neg hlen]
    rw [mem_ite_empty_default _ _ _ dd]
    simp [List.mem_append, mem_singleton_ite, d1, d2, d4]

/-- The completeness suggestion is emitted iff strictly more than 30% of
the assessments score completeness below 0.7. -/
theorem suggestion_completeness_mem_iff (A : List Assessment) :
    suggestion_completeness ∈ generate_improvement_suggestions A ↔
      ((A.countP fun a => decide (a.completeness_score < (7/10 : ℚ))) : ℚ) >
        (A.length : ℚ) * (3/10 : ℚ) := by
  have d0 : suggestion_completeness ≠ suggestion_no_slides := by decide
  have dd : suggestion_completeness ≠ suggestion_default := by decide
  have d1 : suggestion_completeness ≠ suggestion_accuracy := by decide
  have d2 : suggestion_completeness ≠ suggestion_coherence := by decide
  have d3 : suggestion_completeness ≠ suggestion_clarity := by decide
  by_cases hlen : A.length = 0
  · have hA : A = [] := List.length_eq_zero.mp hlen
    subst hA
    simp [generate_improvement_suggestions, d0]
  · simp only [generate_improvement_suggestions, if_neg hlen]
    rw [mem_ite_empty_default _ _ _ dd]
    simp [List.mem_append, mem_singleton_ite, d1, d2, d3]

/-- C8 counterexample: the overall bucket uses the threshold 0.6, not
0.7.  An assessment with overall score 0.65 (below 0.7) is NOT placed in
the `overall_low_quality` bucket, contradicting the claim that all five
categories bucket at 0.7. -/
theorem c8_overall_bucket_threshold_counterexample :
    (mkAssessment 1 (13/20)).overall_score < (7/10 : ℚ) ∧
    (analyze_quality_issues [mkAssessment 1 (13/20)]).overall_low_quality = [] := by
  constructor
  · norm_num [mkAssessment]
  · norm_num [analyze_quality_issues, mkAssessment, List.filter]

/-- C8 (amended): each of the four component buckets
(accuracy/coherence/clarity/completeness) collects exactly the items
whose component score is below 0.7 (bucket length = breach count, and
every breaching item is placed in the matching bucket), while the
`overall_low_quality` bucket uses the threshold 0.6; and each of the
four canned dimension suggestions is emitted exactly when strictly more
than 30% of the items breach that dimension. -/
theorem c8_quality_gate_buckets_and_suggestions :
    (∀ A : List Assessment,
      (analyze_quality_issues A).low_accuracy.length =
        A.countP (fun a => decide (a.accuracy_score < (7/10 : ℚ))) ∧
      (analyze_quality_issues A).poor_coherence.length =
        A.countP (fun a => decide (a.coherence_score < (7/10 : ℚ))) ∧
      (analyze_quality_issues A).unclear_content.length =
        A.countP (fun a => decide (a.clarity_score < (7/10 : ℚ))) ∧
      (analyze_quality_issues A).incomplete_information.length =
        A.countP (fun a => decide (a.completeness_score < (7/10 : ℚ))) ∧
      (analyze_quality_issues A).overall_low_quality.length =
        A.countP (fun a => decide (a.overall_score < (3/5 : ℚ)))) ∧
    (∀ (A : List Assessment) (a : Assessment), a ∈ A →
      (a.accuracy_score < (7/10 : ℚ) →
        issueInfo a ∈ (analyze_quality_issues A).low_accuracy) ∧
      (a.coherence_score < (7/10 : ℚ) →
        issueInfo a ∈ (analyze_quality_issues A).poor_coherence) ∧
      (a.clarity_score < (7/10 : ℚ) →
        issueInfo a ∈ (analyze_quality_issues A).unclear_content) ∧
      (a.completeness_score < (7/10 : ℚ) →
        issueInfo a ∈ (analyze_quality_issues A).incomplete_information) ∧
      (a.overall_score < (3/5 : ℚ) →
        issueInfo a ∈ (analyze_quality_issues A).overall_low_quality)) ∧
    (∀ A : List Assessment,
      (suggestion_accuracy ∈ generate_improvement_suggestions A ↔
        ((A.countP fun a => decide (a.accuracy_score < (7/10 : ℚ))) : ℚ) >
          (A.length : ℚ) * (3/10 : ℚ)) ∧
      (suggestion_coherence ∈ generate_improvement_suggestions A ↔
        ((A.countP fun a => decide (a.coherence_score < (7/10 : ℚ))) : ℚ) >
          (A.length : ℚ) * (3/10 : ℚ)) ∧
      (suggestion_clarity ∈ generate_improvement_suggestions A ↔
        ((A.countP fun a => decide (a.clarity_score < (7/10 : ℚ))) : ℚ) >
          (A.length : ℚ) * (3/10 : ℚ)) ∧
      (suggestion_completeness ∈ generate_improvement_suggestions A ↔
        ((A.countP fun a => decide (a.completeness_score < (7/10 : ℚ))) : ℚ) >
          (A.length : ℚ) * (3/10 : ℚ))) := by
  refine ⟨?_, ?_, ?_⟩
  · intro A
    refine ⟨?_, ?_, ?_, ?_, ?_⟩ <;>
      simp [analyze_quality_issues, List.countP_eq_length_filter]
  · intro A a ha
    refine ⟨?_, ?_, ?_, ?_, ?_⟩ <;> intro h <;>
      exact List.mem_map_of_mem _
        (List.mem_filter.mpr ⟨ha, by simpa using h⟩)
  · intro A
    exact ⟨suggestion_accuracy_mem_iff A, suggestion_coherence_mem_iff A,
      suggestion_clarity_mem_iff A, suggestion_completeness_mem_iff A⟩

/-- Witness for `c8_quality_gate_buckets_and_suggestions` at the spec
example: 10 items, 3 of which breach accuracy, give a `low_accuracy`
bucket of length 3 and no accuracy suggestion (3 is not more than 30% of
10); with a 4th breaching item the suggestion is emitted. -/
theorem c8_quality_gate_buckets_and_suggestions_witness :
    (analyze_quality_issues ex10).low_accuracy.length = 3 ∧
    ((mkAssessment (1/2) 1).accuracy_score < (7/10 : ℚ) ∧
      mkAssessment (1/2) 1 ∈ ex10 ∧
      issueInfo (mkAssessment (1/2) 1) ∈ (analyze_quality_issues ex10).low_accuracy) ∧
    suggestion_accuracy ∈ generate_improvement_suggestions ex10b ∧
    suggestion_accuracy ∉ generate_improvement_suggestions ex10 := by
  obtain ⟨hlen, hmem, hsugg⟩ := c8_quality_gate_buckets_and_suggestions
  refine ⟨?_, ⟨?_, ?_, ?_⟩, ?_, ?_⟩
  · rw [(hlen ex10).1]
    norm_num [ex10, mkAssessment, List.countP_cons]
  · norm_num [mkAssessment]
  · simp [ex10]
  · exact ((hmem ex10 _ (by simp [ex10])).1) (by norm_num [mkAssessment])
  · rw [(hsugg ex10b).1]
    norm_num [ex10b, mkAssessment, List.countP_cons]
  · rw [(hsugg ex10).1]
    norm_num [ex10, mkAssessment, List.countP_cons]

/-! ## C7 counterexample: empty batch still requests optimization -/

/-- C7 counterexample: on an empty batch the quality gate returns
`needs_optimization = true` (average score 0 is below the 0.8 threshold
and pass rate 0 is below 0.8), not `false` as claimed. -/
theorem c7_empty_batch_needs_optimization_true :
    (evaluate_presentation_quality [] [] (4/5) fun _ => Except.error "down").needs_optimization
      = true ∧
    (evaluate_presentation_quality [] [] (4/5) fun _ => Except.error "down").quality_assessments
      = [] := by
  constructor
  · norm_num [evaluate_presentation_quality]
  · norm_num [evaluate_presentation_quality]

/-! ## C9: ledger resolution is a silent no-op without a running attempt -/

/-- The reverse scan does nothing when no attempt matches. -/
theorem markFirstRunning_no_match (step : ProcessingStep) (f : StepResult → StepResult) :
    ∀ l : List StepResult,
      (∀ r ∈ l, ¬(r.step = step ∧ r.status = WorkflowStatus.running)) →
      markFirstRunning step f l = l := by
  intro l
  induction l with
  | nil => intro _; rfl
  | cons r rs ih =>
    intro h
    rw [markFirstRunning, if_neg (h r (List.mem_cons_self _ _)),
      ih fun x hx => h x (List.mem_cons_of_mem _ hx)]

/-- `complete_step` with no matching running attempt is the identity. -/
theorem complete_step_noop (st : WorkflowState) (step : ProcessingStep)
    (d : Option StepData)
    (h : st.step_results.countP
      (fun r => decide (r.step = step ∧ r.status = WorkflowStatus.running)) = 0) :
    st.complete_step step d = st := by
  have h' : ∀ r ∈ st.step_results.reverse,
      ¬(r.step = step ∧ r.status = WorkflowStatus.running) := by
    intro r hr
    have := List.countP_eq_zero.mp h r (List.mem_reverse.mp hr)
    simpa using this
  show { st with step_results :=
    (markFirstRunning step (fun r => r.mark_completed d)
      st.step_results.reverse).reverse } = st
  rw [markFirstRunning_no_match _ _ _ h', List.reverse_reverse]

/-- `fail_step` with no matching running attempt is the identity. -/
theorem fail_step_noop (st : WorkflowState) (step : ProcessingStep) (msg : String)
    (h : st.step_results.countP
      (fun r => decide (r.step = step ∧ r.status = WorkflowStatus.running)) = 0) :
    st.fail_step step msg = st := by
  have h' : ∀ r ∈ st.step_results.reverse,
      ¬(r.step = step ∧ r.status = WorkflowStatus.running) := by
    intro r hr
    have := List.countP_eq_zero.mp h r (List.mem_reverse.mp hr)
    simpa using this
  show { st with step_results :=
    (markFirstRunning step (fun r => r.mark_failed msg)
      st.step_results.reverse).reverse } = st
  rw [markFirstRunning_no_match _ _ _ h', List.reverse_reverse]

/-- After marking (with a function that leaves no attempt running), an
at-most-one-running list holds no running attempt for the step. -/
theorem countP_markFirstRunning_zero (step : ProcessingStep)
    (f : StepResult → StepResult)
    (hf : ∀ r : StepResult,
      ¬((f r).step = step ∧ (f r).status = WorkflowStatus.running)) :
    ∀ l : List StepResult,
      l.countP (fun r => decide (r.step = step ∧ r.status = WorkflowStatus.running)) ≤ 1 →
      (markFirstRunning step f l).countP
        (fun r => decide (r.step = step ∧ r.status = WorkflowStatus.running)) = 0 := by
  intro l
  induction l with
  | nil => intro _; rfl
  | cons r rs ih =>
    intro h
    rw [List.countP_cons] at h
    by_cases hm : r.step = step ∧ r.status = WorkflowStatus.running
    · rw [markFirstRunning, if_pos hm, List.countP_cons]
      have hfr : decide ((f r).step = step ∧ (f r).status = WorkflowStatus.running)
          = false := decide_eq_false (hf r)
      have hd : decide (r.step = step ∧ r.status = WorkflowStatus.running) = true :=
        decide_eq_true hm
      rw [hd] at h
      have h' : rs.countP
          (fun r => decide (r.step = step ∧ r.status = WorkflowStatus.running)) + 1 ≤ 1 := by
        simpa using h
      have hrs : rs.countP
          (fun r => decide (r.step = step ∧ r.status = WorkflowStatus.running)) = 0 := by
        omega
      rw [hfr, hrs]
      simp
    · rw [markFirstRunning, if_neg hm, List.countP_cons]
      have hd : decide (r.step = step ∧ r.status = WorkflowStatus.running) = false :=
        decide_eq_false hm
      rw [hd] at h
      simp only [Bool.false_eq_true, if_false, Nat.add_zero] at h
      have hrs := ih h
      rw [hd, hrs]
      simp

/-- The running count of a state after `complete_step`, when at most one
attempt was running. -/
theorem countP_after_complete_step (st : WorkflowState) (step : ProcessingStep)
    (d : Option StepData)
    (h : st.step_results.countP
      (fun r => decide (r.step = step ∧ r.status = WorkflowStatus.running)) ≤ 1) :
    (st.complete_step step d).step_results.countP
      (fun r => decide (r.step = step ∧ r.status = WorkflowStatus.running)) = 0 := by
  show ((markFirstRunning step (fun r => r.mark_completed d)
    st.step_results.reverse).reverse).countP _ = 0
  rw [show ∀ l : List StepResult, l.reverse.countP
      (fun r => decide (r.step = step ∧ r.status = WorkflowStatus.running)) =
      l.countP (fun r => decide (r.step = step ∧ r.status = WorkflowStatus.running))
    from fun l => by simp [List.countP_eq_length_filter]]
  refine countP_markFirstRunning_zero step _ ?_ _ ?_
  · intro r
    simp [StepResult.mark_completed]
  · simp [List.countP_eq_length_filter]
    simpa [List.countP_eq_length_filter] using h

/-- The running count of a state after `fail_step`, when at most one
attempt was running. -/
theorem countP_after_fail_step (st : WorkflowState) (step : ProcessingStep)
    (msg : String)
    (h : st.step_results.countP
      (fun r => decide (r.step = step ∧ r.status = WorkflowStatus.running)) ≤ 1) :
    (st.fail_step step msg).step_results.countP
      (fun r => decide (r.step = step ∧ r.status = WorkflowStatus.running)) = 0 := by
  show ((markFirstRunning step (fun r => r.mark_failed msg)
    st.step_results.reverse).reverse).countP _ = 0
  rw [show ∀ l : List StepResult, l.reverse.countP
      (fun r => decide (r.step = step ∧ r.status = WorkflowStatus.running)) =
      l.countP (fun r => decide (r.step = step ∧ r.status = WorkflowStatus.running))
    from fun l => by simp [List.countP_eq_length_filter]]
  refine countP_markFirstRunning_zero step _ ?_ _ ?_
  · intro r
    simp [StepResult.mark_failed]
  · simpa [List.countP_eq_length_filter] using h

/-- C9: `complete_step`/`fail_step` with no running attempt for the step
leave the state unchanged (and, being total functions, never throw); in
particular — under the documented invariant that at most one attempt per
step is running — a second call with no intervening `start_step` is a
no-op, in all four call-order combinations. -/
theorem c9_resolution_noop_and_idempotent (st : WorkflowState)
    (step : ProcessingStep) (d d2 : Option StepData) (msg msg2 : String) :
    (st.step_results.countP
        (fun r => decide (r.step = step ∧ r.status = WorkflowStatus.running)) = 0 →
      st.complete_step step d = st ∧ st.fail_step step msg = st) ∧
    (st.step_results.countP
        (fun r => decide (r.step = step ∧ r.status = WorkflowStatus.running)) ≤ 1 →
      (st.complete_step step d).complete_step step d2 = st.complete_step step d ∧
      (st.complete_step step d).fail_step step msg = st.complete_step step d ∧
      (st.fail_step step msg).fail_step step msg2 = st.fail_step step msg ∧
      (st.fail_step step msg).complete_step step d2 = st.fail_step step msg) := by
  constructor
  · intro h
    exact ⟨complete_step_noop st step d h, fail_step_noop st step msg h⟩
  · intro h
    have hc := countP_after_complete_step st step d h
    have hff := countP_after_fail_step st step msg h
    exact ⟨complete_step_noop _ step d2 hc, fail_step_noop _ step msg hc,
      fail_step_noop _ step msg2 hff, complete_step_noop _ step d2 hff⟩

/-- Witness for `c9_resolution_noop_and_idempotent`: a ledger with a
single running generation attempt (idempotence of double resolution) and
no evaluation attempt (silent no-op). -/
theorem c9_resolution_noop_and_idempotent_witness :
    (c9St.step_results.countP
      (fun r => decide (r.step = ProcessingStep.quality_evaluation ∧
        r.status = WorkflowStatus.running)) = 0 ∧
      c9St.complete_step ProcessingStep.quality_evaluation none = c9St) ∧
    (c9St.step_results.countP
      (fun r => decide (r.step = ProcessingStep.slide_generation ∧
        r.status = WorkflowStatus.running)) ≤ 1 ∧
      (c9St.complete_step ProcessingStep.slide_generation none).complete_step
          ProcessingStep.slide_generation none =
        c9St.complete_step ProcessingStep.slide_generation none) := by
  constructor
  · refine ⟨by decide, ?_⟩
    exact ((c9_resolution_noop_and_idempotent c9St ProcessingStep.quality_evaluation
      none none "m" "m").1 (by decide)).1
  · refine ⟨by decide, ?_⟩
    exact ((c9_resolution_noop_and_idempotent c9St ProcessingStep.slide_generation
      none none "m" "m").2 (by decide)).1

/-! ## C10: failed optimization drops the slide entirely -/

/-- The first pass of the optimization loop splits the indexed slides
into the kept list and the task list. -/
theorem optimizeFirstPass_spec (sections : List DocumentSection) (env : OptimizeEnv) :
    ∀ l : List (Nat × SlideContent),
      (optimizeFirstPass sections env l).1 = l.filterMap (optimizeKept sections env) ∧
      ((optimizeFirstPass sections env l).2.filterMap fun p =>
          match env.optRes p.1 with
          | Except.ok s => some s
          | Except.error _ => none) =
        l.filterMap (optimizeResult sections env) := by
  intro l
  induction l with
  | nil => exact ⟨rfl, rfl⟩
  | cons p rest ih =>
    obtain ⟨ih1, ih2⟩ := ih
    cases hf : section_found sections p.2 with
    | false =>
      constructor
      · simp [optimizeFirstPass, optimizeKept, hf, ih1]
      · simp [optimizeFirstPass, optimizeResult, hf, ih2]
    | true =>
      cases he : env.evalRes p.1 with
      | error e =>
        constructor
        · simp [optimizeFirstPass, optimizeKept, hf, he, ih1]
        · simp [optimizeFirstPass, optimizeResult, hf, he, ih2]
      | ok q =>
        cases hq : q.passed with
        | true =>
          constructor
          · simp [optimizeFirstPass, optimizeKept, hf, he, hq, ih1]
          · simp [optimizeFirstPass, optimizeResult, hf, he, hq, ih2]
        | false =>
          constructor
          · simp [optimizeFirstPass, optimizeKept, hf, he, hq, ih1]
          · cases ho : env.optRes p.1 with
            | ok s =>
              simp [optimizeFirstPass, optimizeResult, hf, he, hq, ho, ih2]
            | error e =>
              simp [optimizeFirstPass, optimizeResult, hf, he, hq, ho, ih2]

/-- Every indexed slide contributes to exactly one of: kept list,
optimization results, or dropped. -/
theorem optimize_partition (sections : List DocumentSection) (env : OptimizeEnv) :
    ∀ l : List (Nat × SlideContent),
      (l.filterMap (optimizeKept sections env)).length +
        (l.filterMap (optimizeResult sections env)).length +
        l.countP (optimizeDropped sections env) = l.length := by
  intro l
  induction l with
  | nil => rfl
  | cons p rest ih =>
    rw [List.filterMap_cons, List.filterMap_cons, List.countP_cons]
    cases hf : section_found sections p.2 with
    | false =>
      simp [optimizeKept, optimizeResult, optimizeDropped, hf]
      omega
    | true =>
      cases he : env.evalRes p.1 with
      | error e =>
        simp [optimizeKept, optimizeResult, optimizeDropped, hf, he]
        omega
      | ok q =>
        cases hq : q.passed with
        | true =>
          simp [optimizeKept, optimizeResult, optimizeDropped, hf, he, hq]
          omega
        | false =>
          cases ho : env.optRes p.1 with
          | ok s =>
            simp [optimizeKept, optimizeResult, optimizeDropped, hf, he, hq, ho]
            omega
          | error e =>
            simp [optimizeKept, optimizeResult, optimizeDropped, hf, he, hq, ho]
            omega

/-- C10: in the standalone optimization pass, a slide whose evaluation
reports `passed=false` and whose optimization call then fails contributes
neither its revision nor its original to the output — it is dropped
entirely: the output is the kept slides followed by the successful
revisions, a dropped slide contributes to neither part, the output
length is the input length minus the number of dropped slides, and with
at least one dropped slide the output is strictly shorter than the
input. -/
theorem c10_failed_optimization_drops_slide (slides : List SlideContent)
    (sections : List DocumentSection) (env : OptimizeEnv) :
    optimize_low_quality_slides slides sections env =
      slides.enum.filterMap (optimizeKept sections env) ++
        slides.enum.filterMap (optimizeResult sections env) ∧
    (∀ p : Nat × SlideContent, optimizeDropped sections env p = true →
      optimizeKept sections env p = none ∧ optimizeResult sections env p = none) ∧
    (optimize_low_quality_slides slides sections env).length =
      slides.length - slides.enum.countP (optimizeDropped sections env) ∧
    (0 < slides.enum.countP (optimizeDropped sections env) →
      (optimize_low_quality_slides slides sections env).length < slides.length) := by
  obtain ⟨h1, h2⟩ := optimizeFirstPass_spec sections env slides.enum
  have hout : optimize_low_quality_slides slides sections env =
      slides.enum.filterMap (optimizeKept sections env) ++
        slides.enum.filterMap (optimizeResult sections env) := by
    show (optimizeFirstPass sections env slides.enum).1 ++ _ = _
    rw [h1, h2]
  have hpart := optimize_partition sections env slides.enum
  have hlen : (optimize_low_quality_slides slides sections env).length =
      slides.length - slides.enum.countP (optimizeDropped sections env) := by
    rw [hout, List.length_append]
    have hel : slides.enum.length = slides.length := by simp
    omega
  have hcle : slides.enum.countP (optimizeDropped sections env) ≤ slides.length := by
    have := List.countP_le_length (optimizeDropped sections env) (l := slides.enum)
    simpa using this
  refine ⟨hout, ?_, hlen, ?_⟩
  · intro p hp
    unfold optimizeDropped at hp
    cases hf : section_found sections p.2 with
    | false => simp [hf] at hp
    | true =>
      cases he : env.evalRes p.1 with
      | error e => simp [hf, he] at hp
      | ok q =>
        cases hq : q.passed with
        | true => simp [hf, he, hq] at hp
        | false =>
          cases ho : env.optRes p.1 with
          | ok s => simp [hf, he, hq, ho] at hp
          | error e =>
            constructor
            · simp [optimizeKept, hf, he, hq]
            · simp [optimizeResult, hf, he, hq, ho]
  · intro hpos
    rw [hlen]
    omega

/-- Witness for `c10_failed_optimization_drops_slide`: two slides, the
first failing evaluation with a failing optimization call (dropped), the
second passing (kept): the output is just the second slide —
strictly shorter than the input. -/
theorem c10_failed_optimization_drops_slide_witness :
    optimizeDropped [secZero] c10Env (0, mkSlide 1) = true ∧
    optimizeKept [secZero] c10Env (0, mkSlide 1) = none ∧
    optimizeResult [secZero] c10Env (0, mkSlide 1) = none ∧
    optimize_low_quality_slides [mkSlide 1, mkSlide 2] [secZero] c10Env = [mkSlide 2] ∧
    0 < ([mkSlide 1, mkSlide 2] : List SlideContent).enum.countP
      (optimizeDropped [secZero] c10Env) ∧
    (optimize_low_quality_slides [mkSlide 1, mkSlide 2] [secZero] c10Env).length < 2 := by
  obtain ⟨-, h2, -, h4⟩ :=
    c10_failed_optimization_drops_slide [mkSlide 1, mkSlide 2] [secZero] c10Env
  have hdrop : optimizeDropped [secZero] c10Env (0, mkSlide 1) = true := rfl
  obtain ⟨hk, hr⟩ := h2 (0, mkSlide 1) hdrop
  have hcount : 0 < ([mkSlide 1, mkSlide 2] : List SlideContent).enum.countP
      (optimizeDropped [secZero] c10Env) := by decide
  exact ⟨hdrop, hk, hr, rfl, hcount, h4 hcount⟩

/-! ## Driver lemmas shared by C5, C6 and C7 -/

/-- `start_step` does not change the run status. -/
theorem status_start_step (st : WorkflowState) (step : ProcessingStep) :
    (st.start_step step).status = st.status := rfl

/-- `complete_step` does not change the run status. -/
theorem status_complete_step (st : WorkflowState) (step : ProcessingStep)
    (d : Option StepData) : (st.complete_step step d).status = st.status := rfl

/-- `fail_step` does not change the run status. -/
theorem status_fail_step (st : WorkflowState) (step : ProcessingStep)
    (msg : String) : (st.fail_step step msg).status = st.status := rfl

/-- `add_error` does not change the run status. -/
theorem status_add_error (st : WorkflowState) (step : ProcessingStep)
    (a b : String) : (st.add_error step a b).status = st.status := rfl

attribute [simp] status_start_step status_complete_step status_fail_step
  status_add_error

/-- One driver step that aborts: the node raised, `_execute_workflow`
marks the run failed. -/
theorem runFrom_abort (env : Nat → VisitEnv) (fuel t : Nat) (node : NodeId)
    (st st1 : WorkflowState) (e : String)
    (h : runNode st (env t) node = (st1, some e)) :
    runFrom env (fuel + 1) t node st =
      some ⟨st1.mark_failed e, [node], some e⟩ := by
  rw [runFrom, h]

/-- One driver step into END. -/
theorem runFrom_terminal (env : Nat → VisitEnv) (fuel t : Nat) (node : NodeId)
    (st st1 : WorkflowState)
    (h : runNode st (env t) node = (st1, none))
    (hnx : nextNode st1 node = none) :
    runFrom env (fuel + 1) t node st = some ⟨st1, [node], none⟩ := by
  rw [runFrom, h]
  simp [hnx]

/-- One driver step followed by a completed sub-run. -/
theorem runFrom_step (env : Nat → VisitEnv) (fuel t : Nat) (node : NodeId)
    (st st1 : WorkflowState) (nxt : NodeId) (r' : RunResult)
    (h : runNode st (env t) node = (st1, none))
    (hnx : nextNode st1 node = some nxt)
    (hrec : runFrom env fuel (t + 1) nxt st1 = some r') :
    runFrom env (fuel + 1) t node st =
      some ⟨r'.state, node :: r'.visited, r'.aborted⟩ := by
  rw [runFrom, h]
  simp [hnx, hrec]

/-- One driver step followed by an out-of-fuel sub-run. -/
theorem runFrom_step_none (env : Nat → VisitEnv) (fuel t : Nat) (node : NodeId)
    (st st1 : WorkflowState) (nxt : NodeId)
    (h : runNode st (env t) node = (st1, none))
    (hnx : nextNode st1 node = some nxt)
    (hrec : runFrom env fuel (t + 1) nxt st1 = none) :
    runFrom env (fuel + 1) t node st = none := by
  rw [runFrom, h]
  simp [hnx, hrec]

/-- Every node body except the assembler and the error handler preserves
the run status when it does not raise. -/
theorem runNode_success_status (node : NodeId) (st : WorkflowState)
    (v : VisitEnv) (st1 : WorkflowState)
    (hn1 : node ≠ NodeId.output_assembler_node)
    (hn2 : node ≠ NodeId.error_handler_node)
    (h : runNode st v node = (st1, none)) : st1.status = st.status := by
  cases node
  case output_assembler_node => exact absurd rfl hn1
  case error_handler_node => exact absurd rfl hn2
  all_goals
    simp only [runNode, document_parsing_node, quality_check_node,
      slide_generation_node, quality_evaluation_node, slide_optimization_node,
      narration_generation_node] at h
  all_goals repeat' split at h
  all_goals simp_all
  all_goals rw [← h]
  all_goals simp

/-- The assembler node never raises and always marks the run
completed. -/
theorem output_assembly_node_spec (st : WorkflowState) (v : VisitEnv) :
    (runNode st v NodeId.output_assembler_node).2 = none ∧
    (runNode st v NodeId.output_assembler_node).1.status =
      WorkflowStatus.completed := ⟨rfl, rfl⟩

/-- The error handler never raises and always marks the run failed. -/
theorem error_handler_node_spec (st : WorkflowState) (v : VisitEnv) :
    (runNode st v NodeId.error_handler_node).2 = none ∧
    (runNode st v NodeId.error_handler_node).1.status =
      WorkflowStatus.failed := ⟨rfl, rfl⟩

/-- Resolving the attempt just started leaves the ledger with the marked
attempt appended. -/
theorem step_results_complete_after_start (rs : List StepResult)
    (step : ProcessingStep) (d : Option StepData) :
    (markFirstRunning step (fun r => r.mark_completed d)
      (rs ++ [({ step := step, status := WorkflowStatus.running } : StepResult)]).reverse).reverse =
    rs ++ [StepResult.mark_completed
      ({ step := step, status := WorkflowStatus.running } : StepResult) d] := by
  rw [List.reverse_append]
  simp only [List.reverse_cons, List.reverse_nil, List.nil_append,
    List.singleton_append]
  rw [markFirstRunning, if_pos ⟨rfl, rfl⟩]
  simp

/-- The most recent attempt of a ledger ending in a matching attempt. -/
theorem find_last_matching (rs : List StepResult) (r0 : StepResult)
    (step : ProcessingStep) (hr : (r0.step == step) = true) :
    ((rs ++ [r0]).reverse.find? fun r => r.step == step) = some r0 := by
  rw [List.reverse_append]
  simp [List.find?, hr]

/-- After `start_step` then `complete_step` for the same step, the step
is not failed: the effective (most recent) attempt is the completed
one. -/
theorem is_step_failed_after_start_complete (st : WorkflowState)
    (step : ProcessingStep) (d : Option StepData) :
    ((st.start_step step).complete_step step d).is_step_failed step = false := by
  unfold WorkflowState.is_step_failed WorkflowState.get_step_result
    WorkflowState.complete_step WorkflowState.start_step
  simp only []
  rw [step_results_complete_after_start,
    find_last_matching _ _ _ (by simp [StepResult.mark_completed])]
  simp [StepResult.mark_completed]

/-- A successful quality-evaluation node leaves the evaluation step
completed, never failed. -/
theorem quality_evaluation_success_not_failed (st : WorkflowState)
    (v : VisitEnv) (st1 : WorkflowState)
    (h : quality_evaluation_node st v = (st1, none)) :
    st1.is_step_failed ProcessingStep.quality_evaluation = false := by
  unfold quality_evaluation_node at h
  rcases hp : (st.start_step ProcessingStep.quality_evaluation).presentation_data
    with _ | pres
  · rcases hd : (st.start_step ProcessingStep.quality_evaluation).processed_document
      with _ | sections <;>
      simp only [hp, hd] at h <;>
      exact absurd (congrArg Prod.snd h) (by simp)
  · rcases hd : (st.start_step ProcessingStep.quality_evaluation).processed_document
      with _ | sections
    · simp only [hp, hd] at h
      exact absurd (congrArg Prod.snd h) (by simp)
    · simp only [hp, hd] at h
      by_cases hgp : v.get_provider_ok = false
      · rw [if_pos hgp] at h
        exact absurd (congrArg Prod.snd h) (by simp)
      · rw [if_neg hgp] at h
        have h1 := congrArg Prod.fst h
        simp only at h1
        rw [← h1]
        exact is_step_failed_after_start_complete _ _ _

/-- An END edge leaves only the two terminal nodes. -/
theorem nextNode_none_cases (st : WorkflowState) (node : NodeId)
    (h : nextNode st node = none) :
    node = NodeId.output_assembler_node ∨ node = NodeId.error_handler_node := by
  cases node
  case output_assembler_node => exact Or.inl rfl
  case error_handler_node => exact Or.inr rfl
  all_goals exfalso
  all_goals simp only [nextNode] at h
  all_goals repeat' split at h
  all_goals simp at h

/-- Along any non-raising edge the node rank strictly increases — in
particular, after a successful evaluation the retry edge back to the
generator is never taken. -/
theorem nextNode_rank_increase (node : NodeId) (st : WorkflowState)
    (v : VisitEnv) (st1 : WorkflowState) (nxt : NodeId)
    (h : runNode st v node = (st1, none))
    (hnx : nextNode st1 node = some nxt) :
    nodeRank node < nodeRank nxt := by
  cases node
  case document_parser_node =>
    simp only [nextNode, Option.some.injEq] at hnx
    subst hnx
    decide
  case quality_check_node =>
    simp only [nextNode] at hnx
    split at hnx <;>
      (simp only [Option.some.injEq] at hnx; subst hnx; decide)
  case slide_generator_node =>
    simp only [nextNode, Option.some.injEq] at hnx
    subst hnx
    decide
  case slide_optimizer_node =>
    simp only [nextNode, Option.some.injEq] at hnx
    subst hnx
    decide
  case narration_generator_node =>
    simp only [nextNode, Option.some.injEq] at hnx
    subst hnx
    decide
  case output_assembler_node => simp [nextNode] at hnx
  case error_handler_node => simp [nextNode] at hnx
  case quality_evaluator_node =>
    have hfail : st1.is_step_failed ProcessingStep.quality_evaluation = false :=
      quality_evaluation_success_not_failed st v st1 (by simpa [runNode] using h)
    have hso : should_optimize_slides st1 ≠ OptimizeDecision.retry := by
      unfold should_optimize_slides
      rw [hfail]
      simp only [Bool.false_eq_true, if_false]
      split
      · split
        · split <;> simp
        · simp
      · simp
    simp only [nextNode] at hnx
    cases hso2 : should_optimize_slides st1
    case optimize =>
      rw [hso2] at hnx
      simp only [Option.some.injEq] at hnx
      subst hnx
      decide
    case proceed =>
      rw [hso2] at hnx
      simp only [Option.some.injEq] at hnx
      subst hnx
      decide
    case retry => exact absurd hso2 hso

/-- The visited node list of any completed (sub-)run starts at the start
node and is strictly increasing in rank. -/
theorem runFrom_visited_pairwise (env : Nat → VisitEnv) :
    ∀ (fuel t : Nat) (node : NodeId) (st : WorkflowState) (r : RunResult),
      runFrom env fuel t node st = some r →
      (∀ b ∈ r.visited, nodeRank node ≤ nodeRank b) ∧
      List.Pairwise (fun a b => nodeRank a < nodeRank b) r.visited := by
  intro fuel
  induction fuel with
  | zero =>
    intro t node st r h
    simp [runFrom] at h
  | succ fuel ih =>
    intro t node st r h
    rcases hrn : runNode st (env t) node with ⟨st1, err⟩
    cases err with
    | some e =>
      rw [runFrom_abort env fuel t node st st1 e hrn] at h
      have hr : r = ⟨st1.mark_failed e, [node], some e⟩ := (Option.some.inj h).symm
      subst hr
      refine ⟨?_, by simp⟩
      intro b hb
      simp only [List.mem_singleton] at hb
      subst hb
      exact le_refl _
    | none =>
      rcases hnx : nextNode st1 node with _ | nxt
      · rw [runFrom_terminal env fuel t node st st1 hrn hnx] at h
        have hr : r = ⟨st1, [node], none⟩ := (Option.some.inj h).symm
        subst hr
        refine ⟨?_, by simp⟩
        intro b hb
        simp only [List.mem_singleton] at hb
        subst hb
        exact le_refl _
      · rcases hrec : runFrom env fuel (t + 1) nxt st1 with _ | r'
        · rw [runFrom_step_none env fuel t node st st1 nxt hrn hnx hrec] at h
          simp at h
        · rw [runFrom_step env fuel t node st st1 nxt r' hrn hnx hrec] at h
          have hr : r = ⟨r'.state, node :: r'.visited, r'.aborted⟩ :=
            (Option.some.inj h).symm
          subst hr
          obtain ⟨ihle, ihpw⟩ := ih (t + 1) nxt st1 r' hrec
          have hlt : nodeRank node < nodeRank nxt :=
            nextNode_rank_increase node st (env t) st1 nxt hrn hnx
          constructor
          · intro b hb
            rcases List.mem_cons.mp hb with hb | hb
            · subst hb
              exact le_refl _
            · exact le_of_lt (lt_of_lt_of_le hlt (ihle b hb))
          · exact List.Pairwise.cons
              (fun b hb => lt_of_lt_of_le hlt (ihle b hb)) ihpw

/-- A strictly rank-increasing node list visits every node at most
once. -/
theorem pairwise_rank_count_le_one :
    ∀ l : List NodeId,
      List.Pairwise (fun a b => nodeRank a < nodeRank b) l →
      ∀ n : NodeId, l.count n ≤ 1 := by
  intro l
  induction l with
  | nil => intro _ n; simp
  | cons a t ih =>
    intro hpw n
    obtain ⟨ha, ht⟩ := List.pairwise_cons.mp hpw
    rw [List.count_cons]
    by_cases han : n = a
    · subst han
      have hz : t.count n = 0 := by
        rw [List.count_eq_zero]
        intro hmem
        exact absurd (ha n hmem) (lt_irrefl _)
      simp [hz]
    · have h1 := ih ht n
      have hb : ¬ (a = n) := fun h => han h.symm
      simp [hb]
      exact h1

/-- With fuel at least `8 - rank`, the driver always produces a
result — the pipeline terminates. -/
theorem runFrom_isSome (env : Nat → VisitEnv) :
    ∀ (fuel t : Nat) (node : NodeId) (st : WorkflowState),
      8 - nodeRank node ≤ fuel → (runFrom env fuel t node st).isSome = true := by
  intro fuel
  induction fuel with
  | zero =>
    intro t node st hf
    exfalso
    cases node <;> simp [nodeRank] at hf
  | succ fuel ih =>
    intro t node st hf
    rcases hrn : runNode st (env t) node with ⟨st1, err⟩
    cases err with
    | some e =>
      rw [runFrom_abort env fuel t node st st1 e hrn]
      rfl
    | none =>
      rcases hnx : nextNode st1 node with _ | nxt
      · rw [runFrom_terminal env fuel t node st st1 hrn hnx]
        rfl
      · have hlt := nextNode_rank_increase node st (env t) st1 nxt hrn hnx
        have h7 : nodeRank node ≤ 7 := by cases node <;> simp [nodeRank]
        have h7b : nodeRank nxt ≤ 7 := by cases nxt <;> simp [nodeRank]
        have hr : 8 - nodeRank nxt ≤ fuel := by omega
        have hsome := ih (t + 1) nxt st1 hr
        rcases hrec : runFrom env fuel (t + 1) nxt st1 with _ | r'
        · rw [hrec] at hsome
          simp at hsome
        · rw [runFrom_step env fuel t node st st1 nxt r' hrn hnx hrec]
          rfl

/-! ## C5: completed iff the run reaches assembly -/

/-- C5: over every driver run started in `running` status, the final
status is `completed` exactly when the assembly node was reached
(assembly always marks the run completed, whatever degraded data the
state carries), and the final status is `failed` exactly when the run
went through the error path — a propagated node exception or the error
handler. -/
theorem c5_completed_iff_reaches_assembly (env : Nat → VisitEnv) :
    ∀ (fuel t : Nat) (node : NodeId) (st : WorkflowState) (r : RunResult),
      st.status = WorkflowStatus.running →
      runFrom env fuel t node st = some r →
      (r.state.status = WorkflowStatus.completed ↔
        NodeId.output_assembler_node ∈ r.visited) ∧
      (r.state.status = WorkflowStatus.failed ↔
        (r.aborted ≠ none ∨ NodeId.error_handler_node ∈ r.visited)) := by
  intro fuel
  induction fuel with
  | zero =>
    intro t node st r _ h
    simp [runFrom] at h
  | succ fuel ih =>
    intro t node st r hst h
    rcases hrn : runNode st (env t) node with ⟨st1, err⟩
    cases err with
    | some e =>
      rw [runFrom_abort env fuel t node st st1 e hrn] at h
      have hr : r = ⟨st1.mark_failed e, [node], some e⟩ := (Option.some.inj h).symm
      subst hr
      have hnasm : node ≠ NodeId.output_assembler_node := by
        intro hh
        subst hh
        have hx := (output_assembly_node_spec st (env t)).1
        rw [hrn] at hx
        simp at hx
      constructor
      · constructor
        · intro hc
          exact absurd hc (by simp [WorkflowState.mark_failed])
        · intro hmem
          simp only [List.mem_singleton] at hmem
          exact absurd hmem.symm hnasm
      · constructor
        · intro _
          exact Or.inl (by simp)
        · intro _
          rfl
    | none =>
      rcases hnx : nextNode st1 node with _ | nxt
      · rw [runFrom_terminal env fuel t node st st1 hrn hnx] at h
        have hr : r = ⟨st1, [node], none⟩ := (Option.some.inj h).symm
        subst hr
        rcases nextNode_none_cases st1 node hnx with hc | hc
        · subst hc
          have hst1 : st1.status = WorkflowStatus.completed := by
            have hx := (output_assembly_node_spec st (env t)).2
            rw [hrn] at hx
            simpa using hx
          refine ⟨?_, ?_⟩ <;> simp [hst1]
        · subst hc
          have hst1 : st1.status = WorkflowStatus.failed := by
            have hx := (error_handler_node_spec st (env t)).2
            rw [hrn] at hx
            simpa using hx
          refine ⟨?_, ?_⟩ <;> simp [hst1]
      · rcases hrec : runFrom env fuel (t + 1) nxt st1 with _ | r'
        · rw [runFrom_step_none env fuel t node st st1 nxt hrn hnx hrec] at h
          simp at h
        · rw [runFrom_step env fuel t node st st1 nxt r' hrn hnx hrec] at h
          have hr : r = ⟨r'.state, node :: r'.visited, r'.aborted⟩ :=
            (Option.some.inj h).symm
          subst hr
          have hn1 : node ≠ NodeId.output_assembler_node := by
            intro hh
            subst hh
            simp [nextNode] at hnx
          have hn2 : node ≠ NodeId.error_handler_node := by
            intro hh
            subst hh
            simp [nextNode] at hnx
          have hst1 : st1.status = WorkflowStatus.running := by
            rw [runNode_success_status node st (env t) st1 hn1 hn2 hrn]
            exact hst
          obtain ⟨ih1, ih2⟩ := ih (t + 1) nxt st1 r' hst1 hrec
          constructor
          · constructor
            · intro hc
              exact List.mem_cons_of_mem _ (ih1.mp hc)
            · intro hmem
              rcases List.mem_cons.mp hmem with hmem | hmem
              · exact absurd hmem.symm hn1
              · exact ih1.mpr hmem
          · constructor
            · intro hf
              rcases ih2.mp hf with ha | hm
              · exact Or.inl ha
              · exact Or.inr (List.mem_cons_of_mem _ hm)
            · intro hor
              rcases hor with ha | hm
              · exact ih2.mpr (Or.inl ha)
              · rcases List.mem_cons.mp hm with hm | hm
                · exact absurd hm.symm hn2
                · exact ih2.mpr (Or.inr hm)

/-- Witness for `c5_completed_iff_reaches_assembly`: a run whose parsing
call fails aborts at the document parser; the theorem instance confirms
it is failed and did not reach assembly. -/
theorem c5_completed_iff_reaches_assembly_witness :
    ({ status := WorkflowStatus.running,
       configuration := {} } : WorkflowState).status = WorkflowStatus.running ∧
    ∃ r, runFrom trivEnv 8 0 NodeId.document_parser_node
        { status := WorkflowStatus.running, configuration := {} } = some r ∧
      ((r.state.status = WorkflowStatus.completed ↔
        NodeId.output_assembler_node ∈ r.visited) ∧
      (r.state.status = WorkflowStatus.failed ↔
        (r.aborted ≠ none ∨ NodeId.error_handler_node ∈ r.visited))) := by
  refine ⟨rfl, ?_⟩
  obtain ⟨r, hr⟩ : ∃ r, runFrom trivEnv 8 0 NodeId.document_parser_node
      { status := WorkflowStatus.running, configuration := {} } = some r := ⟨_, rfl⟩
  exact ⟨r, hr,
    c5_completed_iff_reaches_assembly trivEnv 8 0 NodeId.document_parser_node
      { status := WorkflowStatus.running, configuration := {} } r rfl hr⟩

/-! ## C6: the generation/evaluation retry cycle is bounded -/

/-- C6: when the evaluation step has failed, the transition predicate
returns the retry edge exactly while the generation step's retry count is
strictly below the configured `max_retries`, and otherwise forces the
degrade edge onward to narration; moreover in every driver run the
generation and evaluation nodes are together visited at most
`max_retries + 2` times, and with fuel at least 8 the driver always
terminates with a result. -/
theorem c6_retry_cycle_bounded :
    (∀ st : WorkflowState,
      st.is_step_failed ProcessingStep.quality_evaluation = true →
      ((should_optimize_slides st = OptimizeDecision.retry) ↔
        st.get_retry_count ProcessingStep.slide_generation <
          st.configuration.max_retries) ∧
      (st.configuration.max_retries ≤
          st.get_retry_count ProcessingStep.slide_generation →
        should_optimize_slides st = OptimizeDecision.proceed ∧
        nextNode st NodeId.quality_evaluator_node =
          some NodeId.narration_generator_node)) ∧
    (∀ (env : Nat → VisitEnv) (fuel t : Nat) (node : NodeId)
        (st : WorkflowState) (r : RunResult),
      runFrom env fuel t node st = some r →
      r.visited.count NodeId.slide_generator_node +
        r.visited.count NodeId.quality_evaluator_node ≤
        st.configuration.max_retries + 2) ∧
    (∀ (env : Nat → VisitEnv) (fuel t : Nat) (node : NodeId)
        (st : WorkflowState),
      8 ≤ fuel → (runFrom env fuel t node st).isSome = true) := by
  refine ⟨?_, ?_, ?_⟩
  · intro st hfail
    constructor
    · constructor
      · intro hret
        by_contra hnlt
        simp [should_optimize_slides, hfail, hnlt] at hret
      · intro hlt
        simp [should_optimize_slides, hfail, hlt]
    · intro hge
      have hnlt : ¬ (st.get_retry_count ProcessingStep.slide_generation <
          st.configuration.max_retries) := by omega
      have hso : should_optimize_slides st = OptimizeDecision.proceed := by
        simp [should_optimize_slides, hfail, hnlt]
      exact ⟨hso, by simp [nextNode, hso]⟩
  · intro env fuel t node st r h
    obtain ⟨-, hpw⟩ := runFrom_visited_pairwise env fuel t node st r h
    have h1 := pairwise_rank_count_le_one r.visited hpw NodeId.slide_generator_node
    have h2 := pairwise_rank_count_le_one r.visited hpw NodeId.quality_evaluator_node
    omega
  · intro env fuel t node st hf
    apply runFrom_isSome
    have h7 : nodeRank node ≤ 7 := by cases node <;> simp [nodeRank]
    omega

/-- Witness for `c6_retry_cycle_bounded`: a ledger with one generation
attempt (retry count 0) and a failed latest evaluation attempt takes the
retry edge under the default `max_retries = 3`; and a concrete aborting
run with fuel 8 terminates within the bound. -/
theorem c6_retry_cycle_bounded_witness :
    c6FailSt.is_step_failed ProcessingStep.quality_evaluation = true ∧
    should_optimize_slides c6FailSt = OptimizeDecision.retry ∧
    (runFrom trivEnv 8 0 NodeId.document_parser_node
      { status := WorkflowStatus.running, configuration := {} }).isSome = true := by
  obtain ⟨hpred, hcount, hterm⟩ := c6_retry_cycle_bounded
  refine ⟨rfl, ?_, ?_⟩
  · exact ((hpred c6FailSt rfl).1).mpr (by decide)
  · exact hterm trivEnv 8 0 NodeId.document_parser_node
      { status := WorkflowStatus.running, configuration := {} } (by norm_num)

/-! ## C7 (amended): empty unit list -/

/-- C7 (amended): an empty unit list yields empty generation and
evaluation batches, but the batch verdict is `needs_optimization = true`
(average score 0 falls below any positive threshold and pass rate 0
falls below 0.8) — not `false` as claimed; with optimization enabled the
pipeline then takes the optimize edge, optimizes the empty batch, and
still reaches the success terminal: the run ends `completed` with zero
items and no error. -/
theorem c7_empty_unit_list_corrected :
    (∀ (attempts : Nat → List AttemptOutcome) (script : Except String String),
      (generate_slides [] attempts script).slides = [] ∧
      (generate_slides [] attempts script).failed_slides = []) ∧
    (∀ (sections : List DocumentSection) (thr : ℚ)
        (ev : Nat → Except String QualityScore),
      (evaluate_presentation_quality [] sections thr ev).quality_assessments = [] ∧
      (evaluate_presentation_quality [] sections thr ev).needs_optimization = true) ∧
    (runFrom c7Env 8 0 NodeId.slide_generator_node c7State =
      some ⟨c7StE, [NodeId.slide_generator_node, NodeId.quality_evaluator_node,
        NodeId.slide_optimizer_node, NodeId.narration_generator_node,
        NodeId.output_assembler_node], none⟩ ∧
      c7StE.status = WorkflowStatus.completed ∧
      c7StE.presentation_data = some c7Pres ∧ c7Pres.slides = []) := by
  refine ⟨fun attempts script => ⟨rfl, rfl⟩, ?_, ?_⟩
  · intro sections thr ev
    refine ⟨rfl, ?_⟩
    have h08 : decide ((0 : ℚ) < (4/5 : ℚ)) = true := decide_eq_true (by norm_num)
    simp [evaluate_presentation_quality, h08]
  · have h1 : runNode c7State (c7Env 0) NodeId.slide_generator_node =
        (c7StA, none) := by rfl
    have h2 : runNode c7StA (c7Env 1) NodeId.quality_evaluator_node =
        (c7StB, none) := by
      show quality_evaluation_node c7StA (c7Env 1) = (c7StB, none)
      have h08 : decide ((0 : ℚ) < (4/5 : ℚ)) = true := decide_eq_true (by norm_num)
      simp [quality_evaluation_node, c7StA, c7StB, c7Env, c7Pres,
        evaluate_presentation_quality, h08, WorkflowState.start_step,
        WorkflowState.complete_step, markFirstRunning, StepResult.mark_completed]
    have h3 : runNode c7StB (c7Env 2) NodeId.slide_optimizer_node =
        (c7StC, none) := by rfl
    have h4 : runNode c7StC (c7Env 3) NodeId.narration_generator_node =
        (c7StD, none) := by rfl
    have h5 : runNode c7StD (c7Env 4) NodeId.output_assembler_node =
        (c7StE, none) := by rfl
    have hn1 : nextNode c7StA NodeId.slide_generator_node =
        some NodeId.quality_evaluator_node := rfl
    have hn2 : nextNode c7StB NodeId.quality_evaluator_node =
        some NodeId.slide_optimizer_node := by rfl
    have hn3 : nextNode c7StC NodeId.slide_optimizer_node =
        some NodeId.narration_generator_node := rfl
    have hn4 : nextNode c7StD NodeId.narration_generator_node =
        some NodeId.output_assembler_node := rfl
    have hn5 : nextNode c7StE NodeId.output_assembler_node = none := rfl
    have e5 := runFrom_terminal c7Env 3 4 NodeId.output_assembler_node
      c7StD c7StE h5 hn5
    have e4 := runFrom_step c7Env 4 3 NodeId.narration_generator_node
      c7StC c7StD NodeId.output_assembler_node _ h4 hn4 e5
    have e3 := runFrom_step c7Env 5 2 NodeId.slide_optimizer_node
      c7StB c7StC NodeId.narration_generator_node _ h3 hn3 e4
    have e2 := runFrom_step c7Env 6 1 NodeId.quality_evaluator_node
      c7StA c7StB NodeId.slide_optimizer_node _ h2 hn2 e3
    have e1 := runFrom_step c7Env 7 0 NodeId.slide_generator_node
      c7State c7StA NodeId.quality_evaluator_node _ h1 hn1 e2
    exact ⟨e1, rfl, rfl, rfl⟩

end PPTAgent
